import Mathlib

/-!
# Metaqueue

A shallow embedding of `include/metaqueue.hpp`: the metafunctions of namespace
`QueueMetafunctions` (`get_datatype`, `create_error`, `timeout`, `data_builder`,
`push`, `pop_impl`, `pop`) and the member functions of class `metaqueue`.

* Bytes are `Fin 256`; a `char` buffer is a `List Byte`.
* C++ integers are `Int`/`Nat` with the conversions written out (`to_size_t`,
  `to_unsigned`, `to_int`, `to_time_t`, `to_char`).
* A thrown `std::runtime_error` is `Except.error` carrying the message.
* A call that selects a template which cannot be instantiated is in no program: the
  functions for `push<...>::run`, `pop<...>::run` and the member functions calling them
  take a proof that the template selected can be instantiated.
* The POSIX message queue, the clock and `errno` are outside the program: they are a
  parameter `Transport σ` over an arbitrary kernel state `σ`. Every primitive the
  program invokes is recorded in `World.calls`, everything written to the error
  stream in `World.cerr`.
-/

namespace Metaqueue

/-! ## Machine integers and bytes -/

/-- One `char` of memory. -/
abbrev Byte := Fin 256

/-- The constant `EOK`. -/
def EOK : Int := 0

/-- Conversion of an integer to `size_t` (64 bit, unsigned). -/
def to_size_t (n : Int) : Nat := (n % 2 ^ 64).toNat

/-- Conversion of an integer to `unsigned int` (32 bit). -/
def to_unsigned (n : Int) : Nat := (n % 2 ^ 32).toNat

/-- Conversion of an integer to `int` (32 bit, signed). -/
def to_int (n : Int) : Int := (n + 2 ^ 31) % 2 ^ 32 - 2 ^ 31

/-- Conversion of an integer to `time_t` (64 bit, signed). -/
def to_time_t (n : Int) : Int := (n + 2 ^ 63) % 2 ^ 64 - 2 ^ 63

/-- Conversion of an integer to `char`, as the byte appended to a `std::string`. -/
def to_char (n : Int) : Char := Char.ofNat (n % 256).toNat

/-- The terminating character of a C string. -/
def NUL : Char := Char.ofNat 0

/-- The characters a `const char*` view of a `std::string` addresses: those before the
first NUL (`std::string::c_str`, and `what()` of an exception built from a string). -/
def c_str (s : List Char) : List Char := s.takeWhile (fun c => c != NUL)

/-! ## Types of the C library -/

/-- The fields of `struct timespec`. -/
structure timespec where
  tv_sec : Int
  tv_nsec : Int
deriving DecidableEq, Repr

/-- The fields of `struct mq_attr`. -/
structure mq_attr where
  mq_flags : Int
  mq_maxmsg : Int
  mq_msgsize : Int
  mq_curmsgs : Int
deriving DecidableEq, Repr

/-- The template argument `T` as `<type_traits>` sees it: `std::void_t<>` (the default
argument), `std::string`, or any other type with its two classification traits. -/
inductive CxxType where
  | void
  | std_string
  | object (standard_layout trivial : Bool)
deriving DecidableEq, Repr

/-- The trait `std::is_standard_layout<T>::value`; `void` is not an object type, and
`std::string` is standard-layout in the library the examples are built with
(`examples/string_type.cxx` relies on it). -/
def CxxType.is_standard_layout : CxxType → Bool
  | .void => false
  | .std_string => true
  | .object s _ => s

/-- The trait `std::is_trivial<T>::value`. -/
def CxxType.is_trivial : CxxType → Bool
  | .void => false
  | .std_string => false
  | .object _ t => t

/-- What the metafunctions use of the value type: `sizeof`, value initialisation
(`T()` and `return {}`), the object representation read through `(const char *)&data`,
the object obtained by `T data; std::memcpy(&data, buffer, sizeof(T))`, the bytes
`data.data()[0 .. data.size())`, and the constructor `T(buffer, nbytes)`, which may
throw. -/
structure value_ops (α : Type) where
  sizeof : Nat
  value_init : α
  object_bytes : α → List Byte
  memcpy_from : List Byte → α
  data : α → List Byte
  construct : List Byte → Int → Except String α

/-! ## The transport -/

/-- The primitives of the operating system the program calls. Each maps the kernel
state and the arguments to the returned `int` and the next state; a receive also
returns the content of the buffer afterwards, `mq_getattr` the content of `*attr`
afterwards. `mq_open` takes `some (mode, attr)` when called with four arguments. -/
structure Transport (σ : Type) where
  errno : σ → Int
  set_errno : σ → Int → σ
  strerror : Int → String
  clock_gettime : σ → timespec × σ
  mq_open : σ → List Char → Nat → Option (Int × mq_attr) → Int × σ
  mq_close : σ → Int → Int × σ
  mq_notify : σ → Int → Int × σ
  mq_send : σ → Int → List Byte → Nat → Nat → Int × σ
  mq_receive : σ → Int → List Byte → Nat → Int × List Byte × σ
  mq_timedreceive : σ → Int → List Byte → Nat → timespec → Int × List Byte × σ
  mq_getattr : σ → Int → mq_attr → Int × mq_attr × σ
  mq_unlink : σ → List Char → Int × σ

/-- One invocation of a primitive, with the arguments passed by value. -/
inductive Call where
  | clock_gettime
  | mq_open (name : List Char) (oflag : Nat) (create : Option (Int × mq_attr))
  | mq_close (fd : Int)
  | mq_notify (fd : Int)
  | mq_send (fd : Int) (msg : List Byte) (msg_len : Nat) (msg_prio : Nat)
  | mq_receive (fd : Int) (msg_len : Nat)
  | mq_timedreceive (fd : Int) (msg_len : Nat) (abs_timeout : timespec)
  | mq_getattr (fd : Int)
  | mq_unlink (name : List Char)
deriving DecidableEq, Repr

/-- The world a call runs in: the kernel state, the primitives invoked so far and the
chunks written to the error stream so far. -/
structure World (σ : Type) where
  os : σ
  calls : List Call
  cerr : List String

/-- The effect of writing `e.what()` and a newline to `std::cerr` for an exception with
message `msg`:
`what()` is a C string, so the output stops at the first NUL of the message. -/
def report {σ : Type} (w : World σ) (msg : String) : World σ :=
  { w with cerr := w.cerr ++ [String.mk (c_str msg.toList) ++ "\n"] }

/-- The flag `O_RDONLY` of `<fcntl.h>`. -/
def O_RDONLY : Nat := 0

/-- The flag `O_RDWR`. -/
def O_RDWR : Nat := 2

/-- The flag `O_CREAT`. -/
def O_CREAT : Nat := 64

namespace QueueMetafunctions

/-- The metafunction `get_datatype<T>::type`: `std::string` when `T` is `std::void_t<>`,
else `T`. -/
def get_datatype : CxxType → CxxType
  | .void => .std_string
  | T => T

/-- The function `create_error`: the formatted text, cut to the 191 characters that fit
the buffer of 192. -/
def create_error {σ : Type} (tr : Transport σ) (errvalue : Int) : String :=
  String.mk (("The error generated was " ++ toString errvalue ++ " That means:"
    ++ tr.strerror errvalue ++ ".").toList.take 191)

/-- The function `timeout`: read the clock once and add `n` to the seconds. -/
def timeout {σ : Type} (tr : Transport σ) (w : World σ) (n : Int) : timespec × World σ :=
  let r := tr.clock_gettime w.os
  ({ tv_sec := to_time_t (r.1.tv_sec + n), tv_nsec := r.1.tv_nsec },
   { w with os := r.2, calls := w.calls ++ [Call.clock_gettime] })

namespace data_builder

/-- The primary template `data_builder<T, value_size, can_be_memcpyed, is_trivial>::create`. -/
def create_primary {α : Type} : Except String α :=
  .error "Imposible to execute, no specialization for this struct: template <typename T, size_t value_size, bool can_be_memcpyed, bool is_trivial> struct data_builder;"

/-- The specialisation `data_builder<T, value_size, true, true>::create`. The comparison
`nbytes != value_size` is made in `size_t`; `error_str += value_size` and
`error_str += nbytes` append one `char` each. -/
def create_raw {α : Type} (V : value_ops α) (value_size : Nat) (buffer : List Byte)
    (nbytes : Int) : Except String α :=
  if to_size_t nbytes ≠ value_size then
    .error (((("Invalid message size, expected ".push (to_char value_size))
      ++ " But received: ").push (to_char nbytes)))
  else
    .ok (V.memcpy_from (buffer.take value_size))

/-- The specialisation `data_builder<T, value_size, true, false>::create`. -/
def create_view {α : Type} (V : value_ops α) (buffer : List Byte) (nbytes : Int) :
    Except String α :=
  V.construct buffer nbytes

/-- Selection among the specialisations of `data_builder` by the two boolean template
arguments. -/
def create {α : Type} (V : value_ops α) (value_size : Nat) (can_be_memcpyed is_trivial : Bool)
    (buffer : List Byte) (nbytes : Int) : Except String α :=
  match can_be_memcpyed, is_trivial with
  | true, true => create_raw V value_size buffer nbytes
  | true, false => create_view V buffer nbytes
  | _, _ => create_primary

end data_builder

/-- Which specialisation of a metafunction template the two boolean template arguments
select. -/
inductive Strategy where
  | raw_copy
  | view_based
  | reject
deriving DecidableEq, Repr

/-- How the member typedef `value_ref` of a template names the reference type of `T`:
`typename std::add_lvalue_reference<T>::type`, the member of the trait class;
`std::add_lvalue_reference_t<T>`, the alias of that member;
`typename std::add_lvalue_reference_t<T>::type`, a member `type` of what the alias
stands for, a reference type (or `void`), which has no members; or no such typedef. -/
inductive value_ref_name where
  | trait_member
  | alias
  | alias_member
  | absent
deriving DecidableEq, Repr

/-- Whether the typedef names a type, as instantiating the template requires. -/
def value_ref_name.names_a_type : value_ref_name → Bool
  | .alias_member => false
  | _ => true

/-- The pointer types that occur as the last parameter of `pop<...>::run` and as the
argument passed for it; neither converts to the other. -/
inductive priority_pointer where
  | int_pointer
  | unsigned_int_pointer
deriving DecidableEq, Repr

namespace push

/-- Template resolution for `push<T, can_be_memcpyed, is_trivial>`: the specialisations
`<T, true, true>` and `<T, true, false>`, else the primary template. -/
def specialization : Bool → Bool → Strategy
  | true, true => .raw_copy
  | true, false => .view_based
  | _, _ => .reject

/-- The member typedef `value_ref` of each `push` template: the primary template writes
`typename std::add_lvalue_reference_t<T>::type`, the specialisation `<T, true, false>`
`std::add_lvalue_reference_t<T>`, the specialisation `<T, true, true>`
`typename std::add_lvalue_reference<T>::type`. -/
def value_ref : Strategy → value_ref_name
  | .reject => .alias_member
  | .view_based => .alias
  | .raw_copy => .trait_member

/-- Whether the template selected can be instantiated, which the call of its `run` in
`metaqueue::push` requires: its member typedef has to name a type. The primary template
cannot, so its `run`, written to throw the missing-specialisation error, is never
compiled into a program. -/
def instantiable (s : Strategy) : Bool := (value_ref s).names_a_type

/-- The specialisation `push<T, true, false>::run`: send `data.size()` bytes from
`data.data()`. -/
def run_view {σ α : Type} (tr : Transport σ) (V : value_ops α) (w : World σ) (queue_fd : Int)
    (data : α) (priority : Int) : Except String Unit × World σ :=
  let os1 := tr.set_errno w.os EOK
  let r := tr.mq_send os1 queue_fd (V.data data) (V.data data).length (to_unsigned priority)
  let w1 : World σ := { w with os := r.2, calls := w.calls ++
    [Call.mq_send queue_fd (V.data data) (V.data data).length (to_unsigned priority)] }
  if r.1 < 0 then (.error (create_error tr (tr.errno r.2)), w1) else (.ok (), w1)

/-- The specialisation `push<T, true, true>::run`: send the `sizeof(T)` bytes at `&data`. -/
def run_raw {σ α : Type} (tr : Transport σ) (V : value_ops α) (w : World σ) (queue_fd : Int)
    (data : α) (priority : Int) : Except String Unit × World σ :=
  let os1 := tr.set_errno w.os EOK
  let r := tr.mq_send os1 queue_fd (V.object_bytes data) V.sizeof (to_unsigned priority)
  let w1 : World σ := { w with os := r.2, calls := w.calls ++
    [Call.mq_send queue_fd (V.object_bytes data) V.sizeof (to_unsigned priority)] }
  if r.1 < 0 then (.error (create_error tr (tr.errno r.2)), w1) else (.ok (), w1)

/-- The call `push<T, can_be_memcpyed, is_trivial>::run(queue_fd, data, priority)`, which
exists in a program only when the template selected can be instantiated (`h`). -/
def run {σ α : Type} (tr : Transport σ) (V : value_ops α) (can_be_memcpyed is_trivial : Bool)
    (h : instantiable (specialization can_be_memcpyed is_trivial) = true)
    (w : World σ) (queue_fd : Int) (data : α) (priority : Int) : Except String Unit × World σ :=
  match hs : specialization can_be_memcpyed is_trivial with
  | .raw_copy => run_raw tr V w queue_fd data priority
  | .view_based => run_view tr V w queue_fd data priority
  | .reject => absurd h (by rw [hs]; decide)

end push

namespace pop_impl

/-- The function `pop_impl<T, value_size, can_be_memcpyed, is_trivial>::timed`; the result
is the returned pair or the exception, the buffer afterwards and the world afterwards. -/
def timed {σ α : Type} (tr : Transport σ) (V : value_ops α) (value_size : Nat)
    (can_be_memcpyed is_trivial : Bool) (w : World σ) (queue_fd : Int) (buffer : List Byte)
    (buffer_size : Nat) (timeout_seconds : Int) :
    Except String (α × Bool) × List Byte × World σ :=
  let t := timeout tr w timeout_seconds
  let r := tr.mq_timedreceive t.2.os queue_fd buffer buffer_size t.1
  let w1 : World σ := { t.2 with os := r.2.2, calls := t.2.calls ++
    [Call.mq_timedreceive queue_fd buffer_size t.1] }
  if r.1 > 0 then
    if r.1 ≤ 0 then (.error (create_error tr (tr.errno r.2.2)), r.2.1, w1)
    else
      match data_builder.create V value_size can_be_memcpyed is_trivial r.2.1 r.1 with
      | .ok v => (.ok (v, true), r.2.1, w1)
      | .error e => (.error e, r.2.1, w1)
  else (.ok (V.value_init, false), r.2.1, w1)

/-- The function `pop_impl<T, value_size, can_be_memcpyed, is_trivial>::wait`. The
argument `priority` of the source is a location the transport writes to. -/
def wait {σ α : Type} (tr : Transport σ) (V : value_ops α) (value_size : Nat)
    (can_be_memcpyed is_trivial : Bool) (w : World σ) (queue_fd : Int) (buffer : List Byte)
    (buffer_size : Nat) : Except String (α × Bool) × List Byte × World σ :=
  let r := tr.mq_receive w.os queue_fd buffer buffer_size
  let w1 : World σ := { w with os := r.2.2, calls := w.calls ++
    [Call.mq_receive queue_fd buffer_size] }
  if r.1 > 0 then
    if r.1 < 0 then (.error (create_error tr (tr.errno r.2.2)), r.2.1, w1)
    else
      match data_builder.create V value_size can_be_memcpyed is_trivial r.2.1 r.1 with
      | .ok v => (.ok (v, true), r.2.1, w1)
      | .error e => (.error e, r.2.1, w1)
  else (.ok (V.value_init, false), r.2.1, w1)

end pop_impl

namespace pop

/-- Template resolution for `pop<T, can_be_memcpyed, is_trivial>`. -/
def specialization : Bool → Bool → Strategy
  | true, true => .raw_copy
  | true, false => .view_based
  | _, _ => .reject

/-- The member typedef `value_ref` of each `pop` template: the primary template has none,
both specialisations write `std::add_lvalue_reference_t<T>`. -/
def value_ref : Strategy → value_ref_name
  | .reject => .absent
  | .view_based => .alias
  | .raw_copy => .alias

/-- The type of the parameter `priority` of `run` in each `pop` template: `int *` in the
primary template, `unsigned int *` in both specialisations. -/
def priority_parameter : Strategy → priority_pointer
  | .reject => .int_pointer
  | .view_based => .unsigned_int_pointer
  | .raw_copy => .unsigned_int_pointer

/-- The type of the argument `&priority` in `metaqueue::pop`, whose `priority` is an
`unsigned int`. -/
def priority_argument : priority_pointer := .unsigned_int_pointer

/-- Whether the call of `run` in `metaqueue::pop` is well-formed for the template
selected: the member typedef names a type and the argument `&priority` has the type of
the parameter. For the primary template it is not, so its `run`, written to throw the
missing-specialisation error, is never compiled into a program. -/
def instantiable (s : Strategy) : Bool :=
  (value_ref s).names_a_type && decide (priority_parameter s = priority_argument)

/-- The specialisation `pop<T, true, true>::run`, with `value_size = sizeof(value_type)`. -/
def run_raw {σ α : Type} (tr : Transport σ) (V : value_ops α) (w : World σ) (queue_fd : Int)
    (buffer : List Byte) (buffer_size : Nat) (timeout_seconds : Int) :
    Except String (α × Bool) × List Byte × World σ :=
  if timeout_seconds = -1 then
    pop_impl.wait tr V V.sizeof true true w queue_fd buffer buffer_size
  else
    pop_impl.timed tr V V.sizeof true true w queue_fd buffer buffer_size timeout_seconds

/-- The specialisation `pop<T, true, false>::run`. -/
def run_view {σ α : Type} (tr : Transport σ) (V : value_ops α) (w : World σ) (queue_fd : Int)
    (buffer : List Byte) (buffer_size : Nat) (timeout_seconds : Int) :
    Except String (α × Bool) × List Byte × World σ :=
  if timeout_seconds = -1 then
    pop_impl.wait tr V V.sizeof true false w queue_fd buffer buffer_size
  else
    pop_impl.timed tr V V.sizeof true false w queue_fd buffer buffer_size timeout_seconds

/-- The call `pop<T, can_be_memcpyed, is_trivial>::run(queue_fd, buffer, buffer_size,
timeout_seconds, &priority)`, which exists in a program only when it is well-formed for the
template selected (`h`). -/
def run {σ α : Type} (tr : Transport σ) (V : value_ops α) (can_be_memcpyed is_trivial : Bool)
    (h : instantiable (specialization can_be_memcpyed is_trivial) = true)
    (w : World σ) (queue_fd : Int) (buffer : List Byte) (buffer_size : Nat)
    (timeout_seconds : Int) : Except String (α × Bool) × List Byte × World σ :=
  match hs : specialization can_be_memcpyed is_trivial with
  | .raw_copy => run_raw tr V w queue_fd buffer buffer_size timeout_seconds
  | .view_based => run_view tr V w queue_fd buffer buffer_size timeout_seconds
  | .reject => absurd h (by rw [hs]; decide)

end pop

end QueueMetafunctions

/-! ## The class `metaqueue` -/

/-- The non-type template arguments of `metaqueue`. -/
structure Config where
  QueuePermission : Int
  MaxMessages : Int
  MaxMessageSize : Nat
  QueueFlags : Int
deriving DecidableEq, Repr

/-- The default template arguments (`METAQUEUE_DEFAULT_*`). -/
def Config.default : Config :=
  { QueuePermission := 0o660, MaxMessages := 10, MaxMessageSize := 2048, QueueFlags := 0 }

/-- The data members of a `metaqueue` object. -/
structure metaqueue where
  dequeued_message : Bool
  queue_fd : Int
  attr : mq_attr
  mailbox_name : List Char
  buffer : List Byte
deriving DecidableEq, Repr

namespace metaqueue

open QueueMetafunctions

/-- The member type `value_type = get_datatype<T>::type`. -/
def value_type (T : CxxType) : CxxType := get_datatype T

/-- The constant `is_memcpyed = std::is_standard_layout<T>::value`. -/
def is_memcpyed (T : CxxType) : Bool := T.is_standard_layout

/-- The constant `is_trivial = std::is_trivial<T>::value`. -/
def is_trivial (T : CxxType) : Bool := T.is_trivial

/-- The specialisation `metaqueue::push` instantiates:
`QueueMetafunctions::push<value_type, is_memcpyed, is_trivial>`. -/
def push_strategy (T : CxxType) : Strategy :=
  QueueMetafunctions.push.specialization (is_memcpyed T) (is_trivial T)

/-- The specialisation `metaqueue::pop` instantiates:
`QueueMetafunctions::pop<value_type, is_memcpyed, is_trivial>`. -/
def pop_strategy (T : CxxType) : Strategy :=
  QueueMetafunctions.pop.specialization (is_memcpyed T) (is_trivial T)

/-- The member function `clean_buffer`. -/
def clean_buffer (cfg : Config) (self : metaqueue) : metaqueue :=
  { self with buffer := List.replicate cfg.MaxMessageSize 0 }

/-- The member function `clean`. -/
def clean (cfg : Config) (self : metaqueue) : metaqueue :=
  clean_buffer cfg
    { self with
      queue_fd := 0
      attr := { mq_flags := 0, mq_maxmsg := 0, mq_msgsize := 0, mq_curmsgs := 0 } }

/-- The member function `set_name`; `_mailbox_name` is the C string the pointer
addresses, `*_mailbox_name` its first character or the terminator. -/
def set_name (self : metaqueue) (_mailbox_name : List Char) : metaqueue :=
  if _mailbox_name.headD NUL ≠ '/' then
    { self with mailbox_name := ['/'] ++ _mailbox_name }
  else
    { self with mailbox_name := _mailbox_name }

/-- The member function `init`. -/
def init {σ : Type} (cfg : Config) (tr : Transport σ) (self : metaqueue) (w : World σ) :
    Except String metaqueue × World σ :=
  let attr : mq_attr :=
    { mq_flags := cfg.QueueFlags
      mq_maxmsg := cfg.MaxMessages
      mq_msgsize := cfg.MaxMessageSize
      mq_curmsgs := EOK }
  let r := tr.mq_open w.os (c_str self.mailbox_name) (O_RDWR ||| O_CREAT)
    (some (cfg.QueuePermission, attr))
  let w1 : World σ := { w with os := r.2, calls := w.calls ++
    [Call.mq_open (c_str self.mailbox_name) (O_RDWR ||| O_CREAT)
      (some (cfg.QueuePermission, attr))] }
  let self1 := { self with attr := attr, queue_fd := r.1 }
  if r.1 = -1 then
    (.error ("Error while trying to open the queue:" ++ String.mk self.mailbox_name),
     { w1 with cerr := w1.cerr ++
       ["Server: mq_open (server): " ++ tr.strerror (tr.errno r.2) ++ "\n"] })
  else (.ok self1, w1)

/-- The constructor `metaqueue(std::string queue_name)`, run on the storage `uninit` of
the new object. -/
def construct {σ : Type} (cfg : Config) (tr : Transport σ) (uninit : metaqueue) (w : World σ)
    (queue_name : List Char) : Except String metaqueue × World σ :=
  init cfg tr (clean cfg (set_name uninit (c_str queue_name))) w

/-- The destructor. -/
def destruct {σ : Type} (tr : Transport σ) (self : metaqueue) (w : World σ) : World σ :=
  let r := tr.mq_close w.os self.queue_fd
  let w1 : World σ := { w with os := r.2, calls := w.calls ++ [Call.mq_close self.queue_fd] }
  if r.1 ≠ 0 then { w1 with cerr := w1.cerr ++ [create_error tr (tr.errno r.2) ++ "\n"] }
  else w1

/-- The member function `was_dequeued`. -/
def was_dequeued (self : metaqueue) : Bool := self.dequeued_message

/-- The member function `push`; `priority` is an `unsigned int`, converted to the `int`
parameter of `run`. The member function is instantiated when it is called, so a call
exists only in a program in which the `push` template it selects can be instantiated
(`h`). -/
def push {σ α : Type} (T : CxxType)
    (h : QueueMetafunctions.push.instantiable (push_strategy T) = true) (V : value_ops α)
    (tr : Transport σ) (self : metaqueue) (w : World σ) (data : α) (priority : Nat) : World σ :=
  let r := tr.mq_notify w.os self.queue_fd
  let w1 : World σ := { w with os := r.2, calls := w.calls ++ [Call.mq_notify self.queue_fd] }
  if r.1 = -1 then report w1 (create_error tr (tr.errno r.2))
  else
    match QueueMetafunctions.push.run tr V (is_memcpyed T) (is_trivial T) h w1 self.queue_fd
        data (to_int priority) with
    | (.ok _, w2) => w2
    | (.error e, w2) => report w2 e

/-- The member function `pop`: the returned value, the object afterwards and the world
afterwards. A call exists only in a program in which the call of `run` of the `pop`
template it selects is well-formed (`h`). -/
def pop {σ α : Type} (cfg : Config) (T : CxxType)
    (h : QueueMetafunctions.pop.instantiable (pop_strategy T) = true) (V : value_ops α)
    (tr : Transport σ) (self : metaqueue) (w : World σ) (timeout : Int) (_priority : Nat) :
    α × metaqueue × World σ :=
  let self1 := { clean_buffer cfg self with dequeued_message := false }
  match QueueMetafunctions.pop.run tr V (is_memcpyed T) (is_trivial T) h w self1.queue_fd
      self1.buffer cfg.MaxMessageSize timeout with
  | (.ok response, buffer, w1) =>
    (response.1, { self1 with buffer := buffer, dequeued_message := response.2 }, w1)
  | (.error e, buffer, w1) => (V.value_init, { self1 with buffer := buffer }, report w1 e)

/-- The member function `enqueue`. -/
def enqueue {σ α : Type} (T : CxxType)
    (h : QueueMetafunctions.push.instantiable (push_strategy T) = true) (V : value_ops α)
    (tr : Transport σ) (self : metaqueue) (w : World σ) (data : α) (priority : Nat) : World σ :=
  push T h V tr self w data priority

/-- The member function `dequeue`. -/
def dequeue {σ α : Type} (cfg : Config) (T : CxxType)
    (h : QueueMetafunctions.pop.instantiable (pop_strategy T) = true) (V : value_ops α)
    (tr : Transport σ) (self : metaqueue) (w : World σ) (timeout : Int) (priority : Nat) :
    α × metaqueue × World σ :=
  pop cfg T h V tr self w timeout priority

/-- The member function `count()`; `mq_getattr` is given the member `attr` to fill. -/
def count {σ : Type} (tr : Transport σ) (self : metaqueue) (w : World σ) :
    Int × metaqueue × World σ :=
  let r := tr.mq_getattr w.os self.queue_fd self.attr
  let w1 : World σ := { w with os := r.2.2, calls := w.calls ++ [Call.mq_getattr self.queue_fd] }
  let self1 := { self with attr := r.2.1 }
  if r.1 = -1 then (-1, self1, report w1 (create_error tr (tr.errno r.2.2)))
  else (r.2.1.mq_curmsgs, self1, w1)

/-- The static member function `count(std::string _queue_name)`; `attr0` is the content
of the uninitialised local `attr`. -/
def count_by_name {σ : Type} (tr : Transport σ) (w : World σ) (_queue_name : List Char)
    (attr0 : mq_attr) : Int × World σ :=
  let queue_name := ['/'] ++ _queue_name
  let o := tr.mq_open w.os (c_str queue_name) O_RDONLY none
  let w1 : World σ := { w with os := o.2, calls := w.calls ++
    [Call.mq_open (c_str queue_name) O_RDONLY none] }
  if o.1 = -1 then
    let w2 : World σ := { w1 with cerr := w1.cerr ++
      ["Server: mq_open (server): " ++ tr.strerror (tr.errno o.2) ++ "\n"] }
    (-1, report w2 ("Error while trying to open the queue:" ++ String.mk queue_name ++ "\n"
      ++ create_error tr (tr.errno o.2)))
  else
    let g := tr.mq_getattr w1.os o.1 attr0
    let w2 : World σ := { w1 with os := g.2.2, calls := w1.calls ++ [Call.mq_getattr o.1] }
    let c := tr.mq_close w2.os o.1
    let w3 : World σ := { w2 with os := c.2, calls := w2.calls ++ [Call.mq_close o.1] }
    let w4 : World σ :=
      if c.1 ≠ 0 then { w3 with cerr := w3.cerr ++ [create_error tr (tr.errno c.2) ++ "\n"] }
      else w3
    if g.1 = -1 then (-1, report w4 (create_error tr (tr.errno c.2)))
    else (g.2.1.mq_curmsgs, w4)

/-- The member function `unlink`. -/
def unlink {σ : Type} (tr : Transport σ) (self : metaqueue) (w : World σ) : World σ :=
  let r := tr.mq_unlink w.os (c_str self.mailbox_name)
  let w1 : World σ := { w with os := r.2, calls := w.calls ++
    [Call.mq_unlink (c_str self.mailbox_name)] }
  if r.1 ≠ 0 then report w1 (create_error tr (tr.errno r.2)) else w1

end metaqueue

/-! ## Concrete value types and a concrete transport

Used to evaluate the program on explicit inputs. -/

/-- A trivial standard-layout type of `n` bytes (`int` for `n = 4`): an object is its
object representation, value initialisation gives zero bytes; it has no `data()` and no
constructor from a buffer. -/
def trivial_ops (n : Nat) : value_ops (List Byte) :=
  { sizeof := n
    value_init := List.replicate n 0
    object_bytes := fun v => v
    memcpy_from := fun bs => bs
    data := fun _ => []
    construct := fun _ _ => .error "no constructor from a buffer" }

/-- The type `std::string` (of 32 bytes): a string is the sequence of its bytes, `data()`
and `size()` expose them, `std::string(buffer, nbytes)` takes the first `nbytes` bytes of
the buffer (`nbytes` converted to `size_t`), `std::string()` is empty. -/
def std_string_ops : value_ops (List Byte) :=
  { sizeof := 32
    value_init := []
    object_bytes := fun _ => []
    memcpy_from := fun _ => []
    data := fun s => s
    construct := fun buffer nbytes => .ok (buffer.take (to_size_t nbytes)) }

/-- State of a kernel holding one message queue: `errno`, the clock, the queued messages
with their priorities (next to be received first), the two limits of the queue, and
whether closing a descriptor fails. -/
structure Kernel where
  errno : Int
  clock : timespec
  msgs : List (List Byte × Nat)
  mq_maxmsg : Nat
  mq_msgsize : Nat
  close_fails : Bool
deriving DecidableEq, Repr

/-- Insertion of a message behind every queued message of the same or a higher
priority. -/
def Kernel.insert (m : List Byte × Nat) : List (List Byte × Nat) → List (List Byte × Nat)
  | [] => [m]
  | x :: xs => if x.2 < m.2 then m :: x :: xs else x :: Kernel.insert m xs

/-- Receive on the one queue: fails with `EMSGSIZE` (90) when the buffer is smaller than
the message size limit and with `err` when the queue is empty, else removes the first
message and writes it at the start of the buffer. -/
def Kernel.receive (k : Kernel) (buffer : List Byte) (msg_len : Nat) (err : Int) :
    Int × List Byte × Kernel :=
  if msg_len < k.mq_msgsize then (-1, buffer, { k with errno := 90 })
  else
    match k.msgs with
    | [] => (-1, buffer, { k with errno := err })
    | m :: rest => ((m.1.length : Int), m.1 ++ buffer.drop m.1.length, { k with msgs := rest })

/-- A transport over `Kernel`: every descriptor denotes the one queue. A send fails with
`EMSGSIZE` for a message longer than the limit and with `EAGAIN` (11) on a full queue; a
receive on an empty queue fails with `EAGAIN`, a timed one with `ETIMEDOUT` (110);
closing fails with `EBADF` (9) when `close_fails` is set. -/
def loopback : Transport Kernel :=
  { errno := fun k => k.errno
    set_errno := fun k e => { k with errno := e }
    strerror := fun e => "error " ++ toString e
    clock_gettime := fun k => (k.clock, k)
    mq_open := fun k _ _ _ => (3, k)
    mq_close := fun k _ => if k.close_fails then (-1, { k with errno := 9 }) else (0, k)
    mq_notify := fun k _ => (0, k)
    mq_send := fun k _ msg msg_len msg_prio =>
      if k.mq_msgsize < msg_len then (-1, { k with errno := 90 })
      else if k.mq_maxmsg ≤ k.msgs.length then (-1, { k with errno := 11 })
      else (0, { k with msgs := Kernel.insert (msg.take msg_len, msg_prio) k.msgs })
    mq_receive := fun k _ buffer msg_len => k.receive buffer msg_len 11
    mq_timedreceive := fun k _ buffer msg_len _ => k.receive buffer msg_len 110
    mq_getattr := fun k _ _ =>
      (0, { mq_flags := 0, mq_maxmsg := k.mq_maxmsg, mq_msgsize := k.mq_msgsize,
            mq_curmsgs := k.msgs.length }, k)
    mq_unlink := fun k _ => (0, k) }

/-- A kernel whose queue is empty, with the default limits of `metaqueue`. -/
def Kernel.empty : Kernel :=
  { errno := 0, clock := { tv_sec := 1700000000, tv_nsec := 5 }, msgs := [],
    mq_maxmsg := 10, mq_msgsize := 2048, close_fails := false }

/-- A world over the empty kernel in which nothing has been called or reported. -/
def World.start : World Kernel := { os := Kernel.empty, calls := [], cerr := [] }

/-- An open session as the constructor leaves it for the default configuration and the
name `myQueue`, with descriptor 3. -/
def metaqueue.opened : metaqueue :=
  { dequeued_message := false
    queue_fd := 3
    attr := { mq_flags := 0, mq_maxmsg := 10, mq_msgsize := 2048, mq_curmsgs := 0 }
    mailbox_name := "/myQueue".toList
    buffer := List.replicate 2048 0 }

/-- A transport over `Kernel` every primitive of which reports an error: each returns -1
and sets `errno` (`ENOENT` = 2 for `mq_open` and `mq_unlink`, `EBADF` = 9 for the others),
a receive leaves the buffer as it is, `mq_getattr` leaves `*attr` as it is. -/
def refusing : Transport Kernel :=
  { errno := fun k => k.errno
    set_errno := fun k e => { k with errno := e }
    strerror := fun e => "error " ++ toString e
    clock_gettime := fun k => (k.clock, k)
    mq_open := fun k _ _ _ => (-1, { k with errno := 2 })
    mq_close := fun k _ => (-1, { k with errno := 9 })
    mq_notify := fun k _ => (-1, { k with errno := 9 })
    mq_send := fun k _ _ _ _ => (-1, { k with errno := 9 })
    mq_receive := fun k _ buffer _ => (-1, buffer, { k with errno := 9 })
    mq_timedreceive := fun k _ buffer _ _ => (-1, buffer, { k with errno := 9 })
    mq_getattr := fun k _ attr => (-1, attr, { k with errno := 9 })
    mq_unlink := fun k _ => (-1, { k with errno := 2 }) }

/-- A kernel whose queue is full: no message fits, so a send on `loopback` fails with
`EAGAIN`. -/
def Kernel.full : Kernel := { Kernel.empty with mq_maxmsg := 0 }

/-! ## Conversions -/

/-- A size below `2 ^ 64` converts to `size_t` unchanged. -/
theorem to_size_t_of_nat (n : Nat) (h : n < 2 ^ 64) : to_size_t (n : Int) = n := by
  unfold to_size_t
  have h1 : ((n : Int)) % 2 ^ 64 = n := Int.emod_eq_of_lt (by omega) (by exact_mod_cast h)
  rw [h1]
  simp

/-- An `int` other than a size below `2 ^ 63` stays different from it after conversion to
`size_t`. -/
theorem to_size_t_ne_of_int (value_size : Nat) (nbytes : Int) (hsize : value_size < 2 ^ 63)
    (hlo : -2 ^ 31 ≤ nbytes) (hhi : nbytes < 2 ^ 31) (hne : nbytes ≠ value_size) :
    to_size_t nbytes ≠ value_size := by
  unfold to_size_t
  intro h
  have hnn : (0 : Int) ≤ nbytes % 2 ^ 64 := Int.emod_nonneg _ (by norm_num)
  have h2 : nbytes % 2 ^ 64 = (value_size : Int) := by
    rw [← h]
    exact (Int.toNat_of_nonneg hnn).symm
  rcases lt_or_le nbytes 0 with hneg | hpos
  · have h3 : nbytes % 2 ^ 64 = nbytes + 2 ^ 64 := by
      rw [← Int.add_emod_self]
      exact Int.emod_eq_of_lt (by omega) (by omega)
    omega
  · have h3 : nbytes % 2 ^ 64 = nbytes := Int.emod_eq_of_lt hpos (by omega)
    omega

/-- A number of seconds in the range of `time_t` converts unchanged. -/
theorem to_time_t_of_range (n : Int) (hlo : -2 ^ 63 ≤ n) (hhi : n < 2 ^ 63) :
    to_time_t n = n := by
  unfold to_time_t
  have h : (n + 2 ^ 63) % 2 ^ 64 = n + 2 ^ 63 := Int.emod_eq_of_lt (by omega) (by omega)
  omega

/-! ## Template instantiation -/

/-- The `push` template selected can be instantiated exactly when `can_be_memcpyed` is
true. -/
theorem push_instantiable_iff (c t : Bool) :
    QueueMetafunctions.push.instantiable (QueueMetafunctions.push.specialization c t) = true
      ↔ c = true := by
  cases c <;> cases t <;> decide

/-- The call of `run` of the `pop` template selected is well-formed exactly when
`can_be_memcpyed` is true. -/
theorem pop_instantiable_iff (c t : Bool) :
    QueueMetafunctions.pop.instantiable (QueueMetafunctions.pop.specialization c t) = true
      ↔ c = true := by
  cases c <;> cases t <;> decide

/-- For a standard-layout `T` the call of `push<...>::run` in `metaqueue::push` exists. -/
theorem push_instantiable {T : CxxType} (hcopy : metaqueue.is_memcpyed T = true) :
    QueueMetafunctions.push.instantiable (metaqueue.push_strategy T) = true :=
  (push_instantiable_iff _ _).mpr hcopy

/-- For a standard-layout `T` the call of `pop<...>::run` in `metaqueue::pop` exists. -/
theorem pop_instantiable {T : CxxType} (hcopy : metaqueue.is_memcpyed T = true) :
    QueueMetafunctions.pop.instantiable (metaqueue.pop_strategy T) = true :=
  (pop_instantiable_iff _ _).mpr hcopy

/-- When `can_be_memcpyed` is true, `push<...>::run` is the `run` of the raw-copy
specialisation for a trivial type and that of the view-based specialisation otherwise. -/
theorem push_run_eq {σ α : Type} (tr : Transport σ) (V : value_ops α) (c t : Bool)
    (h : QueueMetafunctions.push.instantiable (QueueMetafunctions.push.specialization c t) = true)
    (hc : c = true) (w : World σ) (fd : Int) (data : α) (priority : Int) :
    QueueMetafunctions.push.run tr V c t h w fd data priority
      = if t = true then QueueMetafunctions.push.run_raw tr V w fd data priority
        else QueueMetafunctions.push.run_view tr V w fd data priority := by
  subst hc
  cases t <;> rfl

/-- When `can_be_memcpyed` is true, `pop<...>::run` is the `run` of the raw-copy
specialisation for a trivial type and that of the view-based specialisation otherwise. -/
theorem pop_run_eq {σ α : Type} (tr : Transport σ) (V : value_ops α) (c t : Bool)
    (h : QueueMetafunctions.pop.instantiable (QueueMetafunctions.pop.specialization c t) = true)
    (hc : c = true) (w : World σ) (fd : Int) (buffer : List Byte) (buffer_size : Nat)
    (timeout : Int) :
    QueueMetafunctions.pop.run tr V c t h w fd buffer buffer_size timeout
      = if t = true then QueueMetafunctions.pop.run_raw tr V w fd buffer buffer_size timeout
        else QueueMetafunctions.pop.run_view tr V w fd buffer buffer_size timeout := by
  subst hc
  cases t <;> rfl

/-! ## The raw-copy decoder -/

/-- C1: for a trivial byte-copyable type (at most `INT_MAX` bytes; the object
representation of a value has `sizeof(T)` bytes and `memcpy` into an object stores the
bytes copied), `push<T, true, true>::run` hands the transport exactly the `sizeof(T)`
bytes of the object representation of `v`, and `data_builder<T, sizeof(T), true,
true>::create` on a buffer starting with those bytes and the byte count `sizeof(T)`
succeeds with a value whose object representation is that of `v`. -/
theorem raw_copy_round_trip {σ α : Type} (tr : Transport σ) (V : value_ops α) (w : World σ)
    (queue_fd : Int) (v : α) (priority : Int) (rest : List Byte)
    (hsize : V.sizeof < 2 ^ 31)
    (himage : (V.object_bytes v).length = V.sizeof)
    (hmemcpy : ∀ bs : List Byte, bs.length = V.sizeof → V.object_bytes (V.memcpy_from bs) = bs) :
    (QueueMetafunctions.push.run tr V true true rfl w queue_fd v priority).2.calls
        = w.calls ++ [Call.mq_send queue_fd (V.object_bytes v) V.sizeof (to_unsigned priority)]
      ∧ ∃ r, QueueMetafunctions.data_builder.create V V.sizeof true true
            (V.object_bytes v ++ rest) (V.sizeof : Int) = .ok r
          ∧ V.object_bytes r = V.object_bytes v := by
  constructor
  · simp only [push_run_eq tr V true true rfl rfl, if_true,
      QueueMetafunctions.push.run_raw]
    split <;> rfl
  · refine ⟨V.memcpy_from (V.object_bytes v), ?_, hmemcpy _ himage⟩
    have hconv : to_size_t (V.sizeof : Int) = V.sizeof :=
      to_size_t_of_nat _ (lt_trans hsize (by norm_num))
    simp only [QueueMetafunctions.data_builder.create,
      QueueMetafunctions.data_builder.create_raw, hconv, ne_eq, not_true_eq_false, if_false]
    rw [← himage, List.take_left]

/-- The round trip of C1 for the `int` 1993 of `examples/primitive_type.cxx` (bytes
201, 7, 0, 0) on the concrete transport. -/
theorem raw_copy_round_trip_witness :
    (QueueMetafunctions.push.run loopback (trivial_ops 4) true true rfl World.start 3
        [201, 7, 0, 0] 0).2.calls
        = World.start.calls ++ [Call.mq_send 3 [201, 7, 0, 0] 4 (to_unsigned 0)]
      ∧ ∃ r, QueueMetafunctions.data_builder.create (trivial_ops 4) (trivial_ops 4).sizeof
            true true ((trivial_ops 4).object_bytes [201, 7, 0, 0] ++ List.replicate 2044 0)
            ((trivial_ops 4).sizeof : Int) = .ok r
          ∧ (trivial_ops 4).object_bytes r = (trivial_ops 4).object_bytes [201, 7, 0, 0] :=
  raw_copy_round_trip loopback (trivial_ops 4) World.start 3 [201, 7, 0, 0] 0
    (List.replicate 2044 0) (by norm_num [trivial_ops]) (by simp [trivial_ops])
    (by intro bs _; rfl)

/-- C2: for a value type of fewer than `2 ^ 63` bytes, every buffer and every `int`
byte count `nbytes` (zero and negative ones included) other than `sizeof(T)`,
`data_builder<T, sizeof(T), true, true>::create` throws the size-mismatch error and
builds no value. -/
theorem size_mismatch_rejected {α : Type} (V : value_ops α) (buffer : List Byte)
    (nbytes : Int) (hsize : V.sizeof < 2 ^ 63) (hlo : -2 ^ 31 ≤ nbytes)
    (hhi : nbytes < 2 ^ 31) (hne : nbytes ≠ V.sizeof) :
    QueueMetafunctions.data_builder.create V V.sizeof true true buffer nbytes
        = .error ((("Invalid message size, expected ".push (to_char V.sizeof))
            ++ " But received: ").push (to_char nbytes))
      ∧ ∀ r, QueueMetafunctions.data_builder.create V V.sizeof true true buffer nbytes
          ≠ .ok r := by
  have hconv := to_size_t_ne_of_int V.sizeof nbytes hsize hlo hhi hne
  have hrun : QueueMetafunctions.data_builder.create V V.sizeof true true buffer nbytes
      = .error ((("Invalid message size, expected ".push (to_char V.sizeof))
          ++ " But received: ").push (to_char nbytes)) := by
    simp only [QueueMetafunctions.data_builder.create,
      QueueMetafunctions.data_builder.create_raw, hconv, ne_eq, not_false_eq_true, if_true]
  refine ⟨hrun, ?_⟩
  intro r hr
  rw [hrun] at hr
  cases hr

/-- The rejection of C2 for a 4-byte type and a received count of -1. -/
theorem size_mismatch_rejected_witness :
    QueueMetafunctions.data_builder.create (trivial_ops 4) (trivial_ops 4).sizeof true true
        [1, 2, 3, 4] (-1)
        = .error ((("Invalid message size, expected ".push (to_char (trivial_ops 4).sizeof))
            ++ " But received: ").push (to_char (-1)))
      ∧ ∀ r, QueueMetafunctions.data_builder.create (trivial_ops 4) (trivial_ops 4).sizeof
          true true [1, 2, 3, 4] (-1) ≠ .ok r :=
  size_mismatch_rejected (trivial_ops 4) [1, 2, 3, 4] (-1) (by norm_num [trivial_ops])
    (by norm_num) (by norm_num) (by norm_num [trivial_ops])

/-! ## Channel names -/

/-- C3: `set_name` stores `n` itself when `n` starts with `/` and `/` followed by `n`
otherwise; applying it to the stored name stores the same name again (the empty name
included), and the stored name always begins with `/`. -/
theorem set_name_normalizes (self : metaqueue) (n : List Char) :
    (n.head? = some '/' → (metaqueue.set_name self n).mailbox_name = n)
      ∧ (n.head? ≠ some '/' → (metaqueue.set_name self n).mailbox_name = '/' :: n)
      ∧ (metaqueue.set_name (metaqueue.set_name self n)
          (metaqueue.set_name self n).mailbox_name).mailbox_name
          = (metaqueue.set_name self n).mailbox_name
      ∧ (metaqueue.set_name self n).mailbox_name.head? = some '/' := by
  have hnul : NUL ≠ '/' := by decide
  cases n with
  | nil => simp [metaqueue.set_name, hnul]
  | cons c cs =>
    by_cases hc : c = '/'
    · subst hc
      simp [metaqueue.set_name]
    · simp [metaqueue.set_name, hc]

/-- The normalisation of C3 at the names `myQueue`, `/myQueue` and the empty name. -/
theorem set_name_normalizes_witness :
    (metaqueue.set_name metaqueue.opened "myQueue".toList).mailbox_name = "/myQueue".toList
      ∧ (metaqueue.set_name metaqueue.opened "/myQueue".toList).mailbox_name
          = "/myQueue".toList
      ∧ (metaqueue.set_name metaqueue.opened []).mailbox_name = ['/'] := by
  refine ⟨?_, ?_, ?_⟩
  · exact (set_name_normalizes metaqueue.opened "myQueue".toList).2.1 (by decide)
  · exact (set_name_normalizes metaqueue.opened "/myQueue".toList).1 (by decide)
  · exact (set_name_normalizes metaqueue.opened []).2.1 (by decide)

/-! ## View-based sessions -/

/-- C4 at the empty string: on an empty channel `enqueue` of the empty `std::string`
sends a message of zero bytes without any error report, and `dequeue()` then receives it
(`mq_receive` returns 0, the queue is empty afterwards and nothing is reported) but takes
the branch of `nbytes > 0` being false: it returns `std::string()` and `was_dequeued()`
is false. -/
theorem view_round_trip_empty_string :
    (metaqueue.enqueue .std_string rfl std_string_ops loopback metaqueue.opened World.start
        [] 0).os.msgs = [([], 0)]
      ∧ (metaqueue.enqueue .std_string rfl std_string_ops loopback metaqueue.opened World.start
        [] 0).cerr = []
      ∧ (loopback.mq_receive
          (metaqueue.enqueue .std_string rfl std_string_ops loopback metaqueue.opened World.start
            [] 0).os 3 (List.replicate 2048 0) 2048).1 = 0
      ∧ (metaqueue.dequeue Config.default .std_string rfl std_string_ops loopback metaqueue.opened
          (metaqueue.enqueue .std_string rfl std_string_ops loopback metaqueue.opened World.start
            [] 0) (-1) 0).1 = []
      ∧ (metaqueue.dequeue Config.default .std_string rfl std_string_ops loopback metaqueue.opened
          (metaqueue.enqueue .std_string rfl std_string_ops loopback metaqueue.opened World.start
            [] 0) (-1) 0).2.1.was_dequeued = false
      ∧ (metaqueue.dequeue Config.default .std_string rfl std_string_ops loopback metaqueue.opened
          (metaqueue.enqueue .std_string rfl std_string_ops loopback metaqueue.opened World.start
            [] 0) (-1) 0).2.2.os.msgs = []
      ∧ (metaqueue.dequeue Config.default .std_string rfl std_string_ops loopback metaqueue.opened
          (metaqueue.enqueue .std_string rfl std_string_ops loopback metaqueue.opened World.start
            [] 0) (-1) 0).2.2.cerr = [] := by
  refine ⟨?_, ?_, ?_, ?_, ?_, ?_, ?_⟩ <;> rfl

/-- The round trip of a non-empty `std::string` of at most `MaxMessageSize` bytes on an
empty channel: `dequeue()` returns the string enqueued and `was_dequeued()` is true. -/
theorem view_round_trip_nonempty (s : List Byte) (priority : Nat) (hpos : 0 < s.length)
    (hmax : s.length ≤ 2048) :
    (metaqueue.dequeue Config.default .std_string rfl std_string_ops loopback metaqueue.opened
        (metaqueue.enqueue .std_string rfl std_string_ops loopback metaqueue.opened World.start
          s priority) (-1) 0).1 = s
      ∧ (metaqueue.dequeue Config.default .std_string rfl std_string_ops loopback metaqueue.opened
        (metaqueue.enqueue .std_string rfl std_string_ops loopback metaqueue.opened World.start
          s priority) (-1) 0).2.1.was_dequeued = true := by
  have hconv : to_size_t (s.length : Int) = s.length :=
    to_size_t_of_nat _ (lt_of_le_of_lt hmax (by norm_num))
  have hlen : ¬ (2048 < s.length) := by omega
  have hnn : ¬ ((s.length : Int) ≤ 0) := by omega
  have hpos2 : (0 : Int) < (s.length : Int) := by omega
  have hnlt : ¬ ((s.length : Int) < 0) := by omega
  simp only [metaqueue.dequeue, metaqueue.pop, metaqueue.clean_buffer, Config.default,
    metaqueue.opened]
  generalize List.replicate 2048 (0 : Byte) = zeros
  simp only [metaqueue.enqueue, metaqueue.push,
    QueueMetafunctions.push.run, QueueMetafunctions.push.specialization,
    QueueMetafunctions.push.run_view, QueueMetafunctions.pop.run,
    QueueMetafunctions.pop.specialization, QueueMetafunctions.pop.run_view,
    QueueMetafunctions.pop_impl.wait, QueueMetafunctions.data_builder.create,
    QueueMetafunctions.data_builder.create_view, metaqueue.is_memcpyed, metaqueue.is_trivial,
    CxxType.is_standard_layout, CxxType.is_trivial, loopback, std_string_ops, World.start,
    Kernel.empty, Kernel.receive,
    Kernel.insert, metaqueue.was_dequeued]
  simp [hconv, hlen, hnn, hpos2, hnlt]

/-- The text of `examples/string_type.cxx`, Hello World From Mexico!, enqueued and
dequeued on an empty channel: the same 24 bytes come back and `was_dequeued()` is true. -/
theorem view_round_trip_example :
    (metaqueue.dequeue Config.default .std_string rfl std_string_ops loopback metaqueue.opened
        (metaqueue.enqueue .std_string rfl std_string_ops loopback metaqueue.opened World.start
          [72, 101, 108, 108, 111, 32, 87, 111, 114, 108, 100, 32, 70, 114, 111, 109, 32, 77,
            101, 120, 105, 99, 111, 33] 0) (-1) 0).1
        = [72, 101, 108, 108, 111, 32, 87, 111, 114, 108, 100, 32, 70, 114, 111, 109, 32, 77,
            101, 120, 105, 99, 111, 33]
      ∧ (metaqueue.dequeue Config.default .std_string rfl std_string_ops loopback metaqueue.opened
        (metaqueue.enqueue .std_string rfl std_string_ops loopback metaqueue.opened World.start
          [72, 101, 108, 108, 111, 32, 87, 111, 114, 108, 100, 32, 70, 114, 111, 109, 32, 77,
            101, 120, 105, 99, 111, 33] 0) (-1) 0).2.1.was_dequeued = true :=
  view_round_trip_nonempty _ 0 (by decide) (by decide)

/-! ## Dequeue -/

/-- C5: in either receive mode (`timeout = -1`: `mq_receive`; otherwise
`mq_timedreceive` with the deadline of `timeout`), when the receive the call performs
on the zeroed buffer returns no positive byte count (error, deadline expiry) or the
decoder throws on what was received, `dequeue` returns the value-initialised `T` and
`was_dequeued()` is false afterwards, whatever the flag was before. The result of
`dequeue` is a value: the exception is caught inside the call. The hypothesis `hcall`
says that the call exists, which it does for the byte-copyable value types. -/
theorem dequeue_failure_outcome {σ α : Type} (cfg : Config) (T : CxxType) (V : value_ops α)
    (tr : Transport σ) (self : metaqueue) (w : World σ) (timeout : Int) (priority : Nat)
    (hcall : QueueMetafunctions.pop.instantiable (metaqueue.pop_strategy T) = true)
    (hfail :
      if timeout = -1 then
        (tr.mq_receive w.os self.queue_fd (List.replicate cfg.MaxMessageSize 0)
            cfg.MaxMessageSize).1 ≤ 0
          ∨ ∃ e, QueueMetafunctions.data_builder.create V V.sizeof (metaqueue.is_memcpyed T)
              (metaqueue.is_trivial T)
              (tr.mq_receive w.os self.queue_fd (List.replicate cfg.MaxMessageSize 0)
                cfg.MaxMessageSize).2.1
              (tr.mq_receive w.os self.queue_fd (List.replicate cfg.MaxMessageSize 0)
                cfg.MaxMessageSize).1 = .error e
      else
        (tr.mq_timedreceive (tr.clock_gettime w.os).2 self.queue_fd
            (List.replicate cfg.MaxMessageSize 0) cfg.MaxMessageSize
            (QueueMetafunctions.timeout tr w timeout).1).1 ≤ 0
          ∨ ∃ e, QueueMetafunctions.data_builder.create V V.sizeof (metaqueue.is_memcpyed T)
              (metaqueue.is_trivial T)
              (tr.mq_timedreceive (tr.clock_gettime w.os).2 self.queue_fd
                (List.replicate cfg.MaxMessageSize 0) cfg.MaxMessageSize
                (QueueMetafunctions.timeout tr w timeout).1).2.1
              (tr.mq_timedreceive (tr.clock_gettime w.os).2 self.queue_fd
                (List.replicate cfg.MaxMessageSize 0) cfg.MaxMessageSize
                (QueueMetafunctions.timeout tr w timeout).1).1 = .error e) :
    (metaqueue.dequeue cfg T hcall V tr self w timeout priority).1 = V.value_init
      ∧ (metaqueue.dequeue cfg T hcall V tr self w timeout priority).2.1.was_dequeued
          = false := by
  have hc : metaqueue.is_memcpyed T = true := (pop_instantiable_iff _ _).mp hcall
  simp only [metaqueue.dequeue, metaqueue.pop, metaqueue.clean_buffer, metaqueue.was_dequeued,
    pop_run_eq tr V _ _ _ hc,
    QueueMetafunctions.pop.run_raw, QueueMetafunctions.pop.run_view,
    QueueMetafunctions.pop_impl.wait,
    QueueMetafunctions.pop_impl.timed, QueueMetafunctions.timeout] at hfail ⊢
  generalize List.replicate cfg.MaxMessageSize (0 : Byte) = zeros at hfail ⊢
  cases ht : metaqueue.is_trivial T <;>
    simp only [hc, ht, if_true, Bool.false_eq_true, if_false] at hfail ⊢
  all_goals
    by_cases hto : timeout = -1
    · simp only [hto, if_true] at hfail ⊢
      rcases hfail with hle | ⟨e, he⟩
      · simp [not_lt.mpr hle]
      · by_cases hpos : (tr.mq_receive w.os self.queue_fd zeros cfg.MaxMessageSize).1 > 0
        · simp [hpos, not_le.mpr hpos, not_lt.mpr (le_of_lt hpos), he]
        · simp [hpos]
    · simp only [hto, if_false] at hfail ⊢
      rcases hfail with hle | ⟨e, he⟩
      · simp [not_lt.mpr hle]
      · by_cases hpos : (tr.mq_timedreceive (tr.clock_gettime w.os).2 self.queue_fd zeros
            cfg.MaxMessageSize
            { tv_sec := to_time_t ((tr.clock_gettime w.os).1.tv_sec + timeout),
              tv_nsec := (tr.clock_gettime w.os).1.tv_nsec }).1 > 0
        · simp [hpos, not_le.mpr hpos, he]
        · simp [hpos]

/-- The failure outcome of C5 for a dequeue with a deadline of one second on an empty
channel, on a session whose flag was true before, and for a raw-copy dequeue of a 4-byte
type that receives a message of 3 bytes. -/
theorem dequeue_failure_outcome_witness :
    ((loopback.mq_timedreceive (loopback.clock_gettime World.start.os).2 3
        (List.replicate Config.default.MaxMessageSize 0) Config.default.MaxMessageSize
        (QueueMetafunctions.timeout loopback World.start 1).1).1 ≤ 0
      ∧ (metaqueue.dequeue Config.default .std_string rfl std_string_ops loopback
          { metaqueue.opened with dequeued_message := true } World.start 1 0).1 = []
      ∧ (metaqueue.dequeue Config.default .std_string rfl std_string_ops loopback
          { metaqueue.opened with dequeued_message := true } World.start 1 0).2.1.was_dequeued
          = false)
    ∧ (QueueMetafunctions.data_builder.create (trivial_ops 4) 4 true true
          ([1, 2, 3] ++ List.replicate 2045 0) 3
          = .error "Invalid message size, expected \x04 But received: \x03"
      ∧ (metaqueue.dequeue Config.default (.object true true) rfl (trivial_ops 4) loopback
          { metaqueue.opened with dequeued_message := true }
          { World.start with os := { Kernel.empty with msgs := [([1, 2, 3], 0)] } } (-1) 0).1
          = [0, 0, 0, 0]
      ∧ (metaqueue.dequeue Config.default (.object true true) rfl (trivial_ops 4) loopback
          { metaqueue.opened with dequeued_message := true }
          { World.start with os := { Kernel.empty with msgs := [([1, 2, 3], 0)] } } (-1)
          0).2.1.was_dequeued = false) :=
  ⟨⟨by decide,
    dequeue_failure_outcome Config.default .std_string std_string_ops loopback
      { metaqueue.opened with dequeued_message := true } World.start 1 0 rfl
      (by rw [if_neg (by decide)]; exact Or.inl (by decide))⟩,
   ⟨rfl,
    dequeue_failure_outcome Config.default (.object true true) (trivial_ops 4) loopback
      { metaqueue.opened with dequeued_message := true }
      { World.start with os := { Kernel.empty with msgs := [([1, 2, 3], 0)] } } (-1) 0 rfl
      (by rw [if_pos rfl]; exact Or.inr ⟨_, rfl⟩)⟩⟩

/-- C6: for a byte-copyable value type, trivial or not, `dequeue(timeout)` with
`timeout = -1` invokes `mq_receive` once and nothing else; with a non-negative `int`
timeout (the sum with the seconds of the clock representable in `time_t`) it reads the clock
once and invokes `mq_timedreceive` once, with the deadline whose seconds are the seconds
read plus `timeout` and whose nanoseconds are those read. -/
theorem receive_mode_selection {σ α : Type} (cfg : Config) (T : CxxType) (V : value_ops α)
    (tr : Transport σ) (self : metaqueue) (w : World σ) (timeout : Int) (priority : Nat)
    (hcopy : metaqueue.is_memcpyed T = true) :
    (timeout = -1 →
        (metaqueue.dequeue cfg T (pop_instantiable hcopy) V tr self w timeout priority).2.2.calls
          = w.calls ++ [Call.mq_receive self.queue_fd cfg.MaxMessageSize])
      ∧ (0 ≤ timeout → timeout < 2 ^ 31 → -2 ^ 63 ≤ (tr.clock_gettime w.os).1.tv_sec →
          (tr.clock_gettime w.os).1.tv_sec + timeout < 2 ^ 63 →
        (metaqueue.dequeue cfg T (pop_instantiable hcopy) V tr self w timeout priority).2.2.calls
          = w.calls ++ [Call.clock_gettime,
              Call.mq_timedreceive self.queue_fd cfg.MaxMessageSize
                { tv_sec := (tr.clock_gettime w.os).1.tv_sec + timeout,
                  tv_nsec := (tr.clock_gettime w.os).1.tv_nsec }]) := by
  simp only [metaqueue.dequeue, metaqueue.pop, metaqueue.clean_buffer,
    pop_run_eq tr V _ _ _ hcopy,
    QueueMetafunctions.pop.run_raw, QueueMetafunctions.pop.run_view,
    QueueMetafunctions.pop_impl.wait, QueueMetafunctions.pop_impl.timed,
    QueueMetafunctions.timeout]
  generalize List.replicate cfg.MaxMessageSize (0 : Byte) = zeros
  constructor
  · intro hto
    subst hto
    cases ht : metaqueue.is_trivial T <;>
      simp only [if_true, Bool.false_eq_true, if_false] <;>
      split <;> rename_i heq <;> (split at heq <;> (try split at heq) <;> (try split at heq)) <;> cases heq <;> simp [report]
  · intro h0 _ hlo hhi
    have hne : timeout ≠ -1 := by omega
    have hconv := to_time_t_of_range ((tr.clock_gettime w.os).1.tv_sec + timeout)
      (by omega) hhi
    cases ht : metaqueue.is_trivial T <;>
      simp only [hne, if_true, Bool.false_eq_true, if_false, hconv] <;>
      split <;> rename_i heq <;> (split at heq <;> (try split at heq) <;> (try split at heq)) <;> cases heq <;> simp [report]

/-- The selection of C6 for `std::string` on the empty channel: `dequeue()` invokes
`mq_receive`, `dequeue(5)` reads the clock (1700000000 s, 5 ns) and invokes
`mq_timedreceive` with the deadline 1700000005 s, 5 ns. -/
theorem receive_mode_selection_witness :
    (metaqueue.dequeue Config.default .std_string rfl std_string_ops loopback metaqueue.opened
        World.start (-1) 0).2.2.calls = [Call.mq_receive 3 2048]
      ∧ (metaqueue.dequeue Config.default .std_string rfl std_string_ops loopback metaqueue.opened
        World.start 5 0).2.2.calls
        = [Call.clock_gettime,
            Call.mq_timedreceive 3 2048 { tv_sec := 1700000005, tv_nsec := 5 }] :=
  ⟨(receive_mode_selection Config.default .std_string std_string_ops loopback metaqueue.opened
      World.start (-1) 0 rfl).1 rfl,
   (receive_mode_selection Config.default .std_string std_string_ops loopback metaqueue.opened
      World.start 5 0 rfl).2 (by decide) (by decide) (by decide) (by decide)⟩

/-! ## Strategy selection -/

/-- C7: for every template argument `T` the class constants are `is_standard_layout<T>`
and `is_trivial<T>`, and `metaqueue::push` and `metaqueue::pop` select the same
specialisation by them, following the table. For (true, true) `enqueue` is the
notification followed by `run` of the raw-copy `push` and `dequeue` is `run` of the
raw-copy `pop` on the zeroed buffer; for (true, false) they are the same with `run` of
the view-based `push` and `pop`; when `is_standard_layout<T>` is false both select the
rejecting primary template, whatever `is_trivial<T>` is, and neither call can be
instantiated. -/
theorem strategy_selection_total {σ α : Type} (cfg : Config) (T : CxxType) (V : value_ops α)
    (tr : Transport σ) (self : metaqueue) (w : World σ) (data : α) (priority : Nat)
    (timeout : Int) :
    (metaqueue.is_memcpyed T = T.is_standard_layout ∧ metaqueue.is_trivial T = T.is_trivial)
      ∧ metaqueue.push_strategy T = metaqueue.pop_strategy T
      ∧ metaqueue.push_strategy T
          = (if T.is_standard_layout then
              (if T.is_trivial then QueueMetafunctions.Strategy.raw_copy
               else QueueMetafunctions.Strategy.view_based)
             else QueueMetafunctions.Strategy.reject)
      ∧ (∀ hcopy : metaqueue.is_memcpyed T = true, metaqueue.is_trivial T = true →
          metaqueue.enqueue T (push_instantiable hcopy) V tr self w data priority
              = (if (tr.mq_notify w.os self.queue_fd).1 = -1 then
                  report
                    { w with os := (tr.mq_notify w.os self.queue_fd).2,
                             calls := w.calls ++ [Call.mq_notify self.queue_fd] }
                    (QueueMetafunctions.create_error tr
                      (tr.errno (tr.mq_notify w.os self.queue_fd).2))
                 else
                  match QueueMetafunctions.push.run_raw tr V
                      { w with os := (tr.mq_notify w.os self.queue_fd).2,
                               calls := w.calls ++ [Call.mq_notify self.queue_fd] }
                      self.queue_fd data (to_int priority) with
                  | (.ok _, w2) => w2
                  | (.error e, w2) => report w2 e)
            ∧ metaqueue.dequeue cfg T (pop_instantiable hcopy) V tr self w timeout priority
              = (match QueueMetafunctions.pop.run_raw tr V w self.queue_fd
                    (List.replicate cfg.MaxMessageSize 0) cfg.MaxMessageSize timeout with
                 | (.ok response, buffer, w1) =>
                   (response.1,
                    { self with buffer := buffer, dequeued_message := response.2 }, w1)
                 | (.error e, buffer, w1) =>
                   (V.value_init,
                    { self with buffer := buffer, dequeued_message := false },
                    report w1 e)))
      ∧ (∀ hcopy : metaqueue.is_memcpyed T = true, metaqueue.is_trivial T = false →
          metaqueue.enqueue T (push_instantiable hcopy) V tr self w data priority
              = (if (tr.mq_notify w.os self.queue_fd).1 = -1 then
                  report
                    { w with os := (tr.mq_notify w.os self.queue_fd).2,
                             calls := w.calls ++ [Call.mq_notify self.queue_fd] }
                    (QueueMetafunctions.create_error tr
                      (tr.errno (tr.mq_notify w.os self.queue_fd).2))
                 else
                  match QueueMetafunctions.push.run_view tr V
                      { w with os := (tr.mq_notify w.os self.queue_fd).2,
                               calls := w.calls ++ [Call.mq_notify self.queue_fd] }
                      self.queue_fd data (to_int priority) with
                  | (.ok _, w2) => w2
                  | (.error e, w2) => report w2 e)
            ∧ metaqueue.dequeue cfg T (pop_instantiable hcopy) V tr self w timeout priority
              = (match QueueMetafunctions.pop.run_view tr V w self.queue_fd
                    (List.replicate cfg.MaxMessageSize 0) cfg.MaxMessageSize timeout with
                 | (.ok response, buffer, w1) =>
                   (response.1,
                    { self with buffer := buffer, dequeued_message := response.2 }, w1)
                 | (.error e, buffer, w1) =>
                   (V.value_init,
                    { self with buffer := buffer, dequeued_message := false },
                    report w1 e)))
      ∧ (metaqueue.is_memcpyed T = false →
          metaqueue.push_strategy T = QueueMetafunctions.Strategy.reject
            ∧ metaqueue.pop_strategy T = QueueMetafunctions.Strategy.reject
            ∧ QueueMetafunctions.push.instantiable (metaqueue.push_strategy T) = false
            ∧ QueueMetafunctions.pop.instantiable (metaqueue.pop_strategy T) = false) := by
  refine ⟨⟨rfl, rfl⟩, ?_, ?_, ?_, ?_, ?_⟩
  · simp only [metaqueue.push_strategy, metaqueue.pop_strategy, metaqueue.is_memcpyed,
      metaqueue.is_trivial]
    cases T.is_standard_layout <;> cases T.is_trivial <;> rfl
  · simp only [metaqueue.push_strategy, metaqueue.is_memcpyed, metaqueue.is_trivial]
    cases T.is_standard_layout <;> cases T.is_trivial <;> rfl
  · intro hcopy ht
    constructor
    · simp only [metaqueue.enqueue, metaqueue.push, push_run_eq tr V _ _ _ hcopy, ht,
        if_true]
    · simp only [metaqueue.dequeue, metaqueue.pop, metaqueue.clean_buffer,
        pop_run_eq tr V _ _ _ hcopy, ht, if_true]
  · intro hcopy ht
    constructor
    · simp only [metaqueue.enqueue, metaqueue.push, push_run_eq tr V _ _ _ hcopy, ht,
        Bool.false_eq_true, if_false]
    · simp only [metaqueue.dequeue, metaqueue.pop, metaqueue.clean_buffer,
        pop_run_eq tr V _ _ _ hcopy, ht, Bool.false_eq_true, if_false]
  · intro hrej
    simp only [metaqueue.push_strategy, metaqueue.pop_strategy, hrej]
    cases metaqueue.is_trivial T <;> exact ⟨rfl, rfl, rfl, rfl⟩

/-- The selection of C7 at `int` (raw-copy), `std::string` (view-based) and a type that
is not standard-layout (rejected), with the observable difference of the two strategies:
the raw-copy `enqueue` sends the `sizeof(T)` object bytes, the view-based one the
`size()` bytes at `data()`. -/
theorem strategy_selection_total_witness :
    (metaqueue.push_strategy (.object true true) = QueueMetafunctions.Strategy.raw_copy
      ∧ metaqueue.pop_strategy (.object true true) = QueueMetafunctions.Strategy.raw_copy
      ∧ (metaqueue.enqueue (.object true true) rfl (trivial_ops 4) loopback metaqueue.opened
          World.start [201, 7, 0, 0] 0).calls
          = [Call.mq_notify 3, Call.mq_send 3 [201, 7, 0, 0] 4 0])
      ∧ (metaqueue.push_strategy .std_string = QueueMetafunctions.Strategy.view_based
        ∧ metaqueue.pop_strategy .std_string = QueueMetafunctions.Strategy.view_based
        ∧ (metaqueue.enqueue .std_string rfl std_string_ops loopback metaqueue.opened
            World.start [72, 105] 0).calls
            = [Call.mq_notify 3, Call.mq_send 3 [72, 105] 2 0])
      ∧ (metaqueue.push_strategy (.object false true) = QueueMetafunctions.Strategy.reject
        ∧ metaqueue.pop_strategy (.object false true) = QueueMetafunctions.Strategy.reject) :=
  ⟨⟨rfl, rfl, rfl⟩, ⟨rfl, rfl, rfl⟩,
   ((strategy_selection_total Config.default (.object false true) (trivial_ops 4) loopback
      metaqueue.opened World.start [1, 2, 3, 4] 0 (-1)).2.2.2.2.2 rfl).1,
   ((strategy_selection_total Config.default (.object false true) (trivial_ops 4) loopback
      metaqueue.opened World.start [1, 2, 3, 4] 0 (-1)).2.2.2.2.2 rfl).2.1⟩

/-- C8 for the omitted template argument (`T = std::void_t<>`): the value type is
`std::string`, whose own classification selects the view-based specialisations, which
can be instantiated; but the constants `is_memcpyed` and `is_trivial` are the traits of
`T` itself, both false, so `push` and `pop` select the rejecting primary templates, and
for these neither the call in `metaqueue::push` nor the one in `metaqueue::pop` can be
instantiated. -/
theorem default_payload_type_dispatch :
    metaqueue.value_type .void = .std_string
      ∧ metaqueue.push_strategy (metaqueue.value_type .void) = .view_based
      ∧ metaqueue.pop_strategy (metaqueue.value_type .void) = .view_based
      ∧ metaqueue.is_memcpyed .void = false
      ∧ metaqueue.is_trivial .void = false
      ∧ metaqueue.push_strategy .void = .reject
      ∧ metaqueue.pop_strategy .void = .reject
      ∧ QueueMetafunctions.push.instantiable
          (metaqueue.push_strategy (metaqueue.value_type .void)) = true
      ∧ QueueMetafunctions.pop.instantiable
          (metaqueue.pop_strategy (metaqueue.value_type .void)) = true
      ∧ QueueMetafunctions.push.instantiable (metaqueue.push_strategy .void) = false
      ∧ QueueMetafunctions.pop.instantiable (metaqueue.pop_strategy .void) = false := by
  refine ⟨?_, ?_, ?_, ?_, ?_, ?_, ?_, ?_, ?_, ?_, ?_⟩ <;> rfl

/-! ## Counting -/

/-- C9 as stated fails: with one message queued and a descriptor whose `mq_close` fails,
`count("myQueue")` invokes `mq_close`, which returns -1 and is reported, and still
returns the count 1, not -1. -/
theorem count_by_name_close_failure :
    (metaqueue.count_by_name loopback
        { World.start with
          os := { Kernel.empty with msgs := [([1, 2, 3], 0)], close_fails := true } }
        "myQueue".toList ⟨0, 0, 0, 0⟩).2.calls
        = [Call.mq_open "/myQueue".toList O_RDONLY none, Call.mq_getattr 3, Call.mq_close 3]
      ∧ (loopback.mq_close { Kernel.empty with msgs := [([1, 2, 3], 0)], close_fails := true }
          3).1 = -1
      ∧ (metaqueue.count_by_name loopback
        { World.start with
          os := { Kernel.empty with msgs := [([1, 2, 3], 0)], close_fails := true } }
        "myQueue".toList ⟨0, 0, 0, 0⟩).2.cerr.length = 1
      ∧ (metaqueue.count_by_name loopback
        { World.start with
          os := { Kernel.empty with msgs := [([1, 2, 3], 0)], close_fails := true } }
        "myQueue".toList ⟨0, 0, 0, 0⟩).1 = 1 := by
  refine ⟨?_, ?_, ?_, ?_⟩ <;> rfl

/-- C9 amended: `count()` returns -1 when `mq_getattr` returns -1 and otherwise the
`mq_curmsgs` that `mq_getattr` reported; `count(name)` returns -1 when `mq_open` returns
-1 or when `mq_getattr`, on the descriptor opened, returns -1, and otherwise the
`mq_curmsgs` reported, whatever `mq_close` returns. Both return a value in every case. -/
theorem count_sentinel {σ : Type} (tr : Transport σ) (self : metaqueue) (w : World σ)
    (name : List Char) (attr0 : mq_attr) :
    (metaqueue.count tr self w).1
        = (if (tr.mq_getattr w.os self.queue_fd self.attr).1 = -1 then -1
           else (tr.mq_getattr w.os self.queue_fd self.attr).2.1.mq_curmsgs)
      ∧ (metaqueue.count_by_name tr w name attr0).1
        = (if (tr.mq_open w.os (c_str ('/' :: name)) O_RDONLY none).1 = -1 then -1
           else if (tr.mq_getattr (tr.mq_open w.os (c_str ('/' :: name)) O_RDONLY none).2
                (tr.mq_open w.os (c_str ('/' :: name)) O_RDONLY none).1 attr0).1 = -1 then -1
           else (tr.mq_getattr (tr.mq_open w.os (c_str ('/' :: name)) O_RDONLY none).2
                (tr.mq_open w.os (c_str ('/' :: name)) O_RDONLY none).1 attr0).2.1.mq_curmsgs) := by
  constructor
  · simp only [metaqueue.count]
    split <;> rfl
  · simp only [metaqueue.count_by_name, List.singleton_append]
    split
    · rfl
    · split <;> rfl

/-- C10 as stated fails: with one message queued, `count()` on a session whose stored
attributes say `mq_curmsgs = 0` leaves `mq_curmsgs = 1` in the member `attr`. -/
theorem count_overwrites_attr :
    metaqueue.opened.attr.mq_curmsgs = 0
      ∧ (metaqueue.count loopback metaqueue.opened
          { World.start with os := { Kernel.empty with msgs := [([1, 2, 3], 0)] } }).2.1.attr.mq_curmsgs
          = 1
      ∧ (metaqueue.count loopback metaqueue.opened
          { World.start with os := { Kernel.empty with msgs := [([1, 2, 3], 0)] } }).2.1
          ≠ metaqueue.opened := by
  refine ⟨rfl, rfl, ?_⟩
  decide

/-- C10 amended: `count()` leaves the descriptor, the success flag, the scratch buffer
and the channel name unchanged; the member `attr` holds afterwards what `mq_getattr`
wrote to it. -/
theorem count_frame {σ : Type} (tr : Transport σ) (self : metaqueue) (w : World σ) :
    (metaqueue.count tr self w).2.1.queue_fd = self.queue_fd
      ∧ (metaqueue.count tr self w).2.1.dequeued_message = self.dequeued_message
      ∧ (metaqueue.count tr self w).2.1.buffer = self.buffer
      ∧ (metaqueue.count tr self w).2.1.mailbox_name = self.mailbox_name
      ∧ (metaqueue.count tr self w).2.1.attr
          = (tr.mq_getattr w.os self.queue_fd self.attr).2.1 := by
  simp only [metaqueue.count]
  split <;> exact ⟨rfl, rfl, rfl, rfl, rfl⟩

/-! ## Auxiliary facts on names and call traces -/

/-- An `unsigned int` converted to `int` and back is unchanged. -/
theorem to_unsigned_to_int (p : Nat) (h : p < 2 ^ 32) : to_unsigned (to_int (p : Int)) = p := by
  unfold to_unsigned to_int
  omega

/-- Taking the C string of a C string changes nothing. -/
theorem c_str_c_str (s : List Char) : c_str (c_str s) = c_str s := by
  unfold c_str
  induction s with
  | nil => rfl
  | cons c cs ih =>
    by_cases hc : (c != NUL) = true
    · simp only [List.takeWhile_cons, hc, if_true, ih]
    · simp [List.takeWhile_cons, hc]

/-- The C string of a name that does not begin with `/` does not begin with `/`. -/
theorem c_str_headD (n : List Char) (hsep : n.head? ≠ some '/') : (c_str n).headD NUL ≠ '/' := by
  have hnul : NUL ≠ '/' := by decide
  cases n with
  | nil => simpa [c_str] using hnul
  | cons c cs =>
    have hc : c ≠ '/' := by simpa using hsep
    by_cases hcn : (c != NUL) = true
    · simpa [c_str, List.takeWhile_cons, hcn] using hc
    · simpa [c_str, List.takeWhile_cons, hcn] using hnul

/-- The primitives the static `count` invokes: `mq_open`, and when it succeeds
`mq_getattr` and `mq_close` on the descriptor opened, each once. -/
theorem count_by_name_calls {σ : Type} (tr : Transport σ) (w : World σ) (n : List Char)
    (attr0 : mq_attr) :
    (metaqueue.count_by_name tr w n attr0).2.calls
      = w.calls ++
        (if (tr.mq_open w.os (c_str ('/' :: n)) O_RDONLY none).1 = -1 then
          [Call.mq_open (c_str ('/' :: n)) O_RDONLY none]
         else
          [Call.mq_open (c_str ('/' :: n)) O_RDONLY none,
            Call.mq_getattr (tr.mq_open w.os (c_str ('/' :: n)) O_RDONLY none).1,
            Call.mq_close (tr.mq_open w.os (c_str ('/' :: n)) O_RDONLY none).1]) := by
  simp only [metaqueue.count_by_name, List.singleton_append]
  split_ifs <;> simp [report]

/-- The primitives `dequeue` invokes for a byte-copyable value type: `mq_receive` when
`timeout` is -1, else `clock_gettime` and `mq_timedreceive` with the deadline computed by
`timeout`, each once. -/
theorem dequeue_calls {σ α : Type} (cfg : Config) (T : CxxType) (V : value_ops α)
    (tr : Transport σ) (self : metaqueue) (w : World σ) (timeout : Int) (priority : Nat)
    (hcopy : metaqueue.is_memcpyed T = true) :
    (metaqueue.dequeue cfg T (pop_instantiable hcopy) V tr self w timeout priority).2.2.calls
      = w.calls ++
        (if timeout = -1 then [Call.mq_receive self.queue_fd cfg.MaxMessageSize]
         else [Call.clock_gettime,
           Call.mq_timedreceive self.queue_fd cfg.MaxMessageSize
             (QueueMetafunctions.timeout tr w timeout).1]) := by
  simp only [metaqueue.dequeue, metaqueue.pop, metaqueue.clean_buffer,
    pop_run_eq tr V _ _ _ hcopy,
    QueueMetafunctions.pop.run_raw, QueueMetafunctions.pop.run_view,
    QueueMetafunctions.pop_impl.wait, QueueMetafunctions.pop_impl.timed,
    QueueMetafunctions.timeout]
  generalize List.replicate cfg.MaxMessageSize (0 : Byte) = zeros
  by_cases hto : timeout = -1
  · subst hto
    cases ht : metaqueue.is_trivial T <;>
      simp only [if_true, Bool.false_eq_true, if_false] <;>
      split <;> rename_i heq <;>
      (split at heq <;> (try split at heq) <;> (try split at heq)) <;>
      cases heq <;> simp [report]
  · cases ht : metaqueue.is_trivial T <;>
      simp only [hto, if_true, Bool.false_eq_true, if_false] <;>
      split <;> rename_i heq <;>
      (split at heq <;> (try split at heq) <;> (try split at heq)) <;>
      cases heq <;> simp [report]

/-! ## Counting by name -/

/-- C11 at the name `/myQueue`: the constructor opens `/myQueue`, the static
`count("/myQueue")` opens `//myQueue`. -/
theorem count_by_name_leading_separator :
    (metaqueue.construct Config.default loopback metaqueue.opened World.start
        "/myQueue".toList).2.calls
        = [Call.mq_open "/myQueue".toList (O_RDWR ||| O_CREAT) (some (0o660, ⟨0, 10, 2048, 0⟩))]
      ∧ (metaqueue.count_by_name loopback World.start "/myQueue".toList ⟨0, 0, 0, 0⟩).2.calls
        = [Call.mq_open "//myQueue".toList O_RDONLY none, Call.mq_getattr 3, Call.mq_close 3] := by
  constructor <;> rfl

/-- For a name that does not begin with `/`, the constructor and the static `count`
open the channel under the same name, `/` followed by the C string of the name. -/
theorem count_by_name_opens_session_name {σ : Type} (cfg : Config) (tr : Transport σ)
    (uninit : metaqueue) (w : World σ) (n : List Char) (attr0 : mq_attr)
    (hsep : n.head? ≠ some '/') :
    (metaqueue.construct cfg tr uninit w n).2.calls
        = w.calls ++ [Call.mq_open ('/' :: c_str n) (O_RDWR ||| O_CREAT)
            (some (cfg.QueuePermission,
              ⟨cfg.QueueFlags, cfg.MaxMessages, cfg.MaxMessageSize, EOK⟩))]
      ∧ ∃ rest, (metaqueue.count_by_name tr w n attr0).2.calls
          = w.calls ++ Call.mq_open ('/' :: c_str n) O_RDONLY none :: rest := by
  have hslash : ('/' != NUL) = true := by decide
  have hcs : ∀ l, c_str ('/' :: l) = '/' :: c_str l := by
    intro l
    simp [c_str, List.takeWhile_cons, hslash]
  constructor
  · simp only [metaqueue.construct, metaqueue.init, metaqueue.clean, metaqueue.clean_buffer,
      metaqueue.set_name, c_str_headD n hsep, ne_eq, not_false_eq_true, if_true,
      List.singleton_append, hcs, c_str_c_str]
    split <;> rfl
  · rw [count_by_name_calls, hcs]
    split_ifs
    · exact ⟨[], rfl⟩
    · exact ⟨_, rfl⟩

/-! ## Error reports -/

/-- C12 as stated fails: when `mq_open` fails, `count("myQueue")` invokes `mq_open` once
and writes two reports to the error stream, the line of `perror` and the message of the
exception it catches. -/
theorem count_by_name_reports_twice :
    (refusing.mq_open World.start.os "/myQueue".toList O_RDONLY none).1 = -1
      ∧ (metaqueue.count_by_name refusing World.start "myQueue".toList ⟨0, 0, 0, 0⟩).2.calls
        = [Call.mq_open "/myQueue".toList O_RDONLY none]
      ∧ (metaqueue.count_by_name refusing World.start "myQueue".toList ⟨0, 0, 0, 0⟩).2.cerr
        = ["Server: mq_open (server): error 2\n",
           "Error while trying to open the queue:/myQueue\nThe error generated was 2 That means:error 2.\n"]
      ∧ (metaqueue.count_by_name refusing World.start "myQueue".toList ⟨0, 0, 0, 0⟩).2.cerr.length
        = 2 := by
  refine ⟨?_, ?_, ?_, ?_⟩ <;> rfl

/-- A `dequeue()` whose `mq_receive` fails invokes it once, writes nothing to the error
stream and leaves `was_dequeued()` false. -/
theorem dequeue_receive_error_unreported :
    (refusing.mq_receive World.start.os 3 (List.replicate 2048 0) 2048).1 = -1
      ∧ (metaqueue.dequeue Config.default .std_string rfl std_string_ops refusing metaqueue.opened
          World.start (-1) 0).2.2.calls = [Call.mq_receive 3 2048]
      ∧ (metaqueue.dequeue Config.default .std_string rfl std_string_ops refusing metaqueue.opened
          World.start (-1) 0).2.2.cerr = []
      ∧ (metaqueue.dequeue Config.default .std_string rfl std_string_ops refusing metaqueue.opened
          World.start (-1) 0).2.1.was_dequeued = false := by
  refine ⟨?_, ?_, ?_, ?_⟩ <;> rfl

/-- C12 amended: for a byte-copyable value type, `enqueue` writes exactly one report when
`mq_notify` fails (and then sends nothing) and exactly one when `mq_send` fails; `count()`
writes exactly one when `mq_getattr` fails, `unlink` exactly one when `mq_unlink` fails;
`count(name)` writes two reports when `mq_open` fails and otherwise one for a failing
`mq_getattr` plus one for a failing `mq_close`. In these calls and in `dequeue` every
primitive is invoked at most once. -/
theorem error_reports_once {σ α : Type} (cfg : Config) (T : CxxType) (V : value_ops α)
    (tr : Transport σ) (self : metaqueue) (w : World σ) (data : α) (priority : Nat)
    (timeout : Int) (name : List Char) (attr0 : mq_attr)
    (hcopy : metaqueue.is_memcpyed T = true) :
    ((tr.mq_notify w.os self.queue_fd).1 = -1 →
        (metaqueue.enqueue T (push_instantiable hcopy) V tr self w data priority).calls
            = w.calls ++ [Call.mq_notify self.queue_fd]
          ∧ (metaqueue.enqueue T (push_instantiable hcopy) V tr self w data priority).cerr.length = w.cerr.length + 1)
      ∧ ((tr.mq_notify w.os self.queue_fd).1 ≠ -1 →
        (metaqueue.enqueue T (push_instantiable hcopy) V tr self w data priority).calls
            = w.calls ++ [Call.mq_notify self.queue_fd,
                Call.mq_send self.queue_fd
                  (if metaqueue.is_trivial T = true then V.object_bytes data else V.data data)
                  (if metaqueue.is_trivial T = true then V.sizeof else (V.data data).length)
                  (to_unsigned (to_int priority))]
          ∧ ((tr.mq_send (tr.set_errno (tr.mq_notify w.os self.queue_fd).2 EOK) self.queue_fd
                (if metaqueue.is_trivial T = true then V.object_bytes data else V.data data)
                (if metaqueue.is_trivial T = true then V.sizeof else (V.data data).length)
                (to_unsigned (to_int priority))).1 < 0 →
              (metaqueue.enqueue T (push_instantiable hcopy) V tr self w data priority).cerr.length
                = w.cerr.length + 1))
      ∧ (metaqueue.count tr self w).2.2.calls = w.calls ++ [Call.mq_getattr self.queue_fd]
      ∧ ((tr.mq_getattr w.os self.queue_fd self.attr).1 = -1 →
          (metaqueue.count tr self w).2.2.cerr.length = w.cerr.length + 1)
      ∧ (metaqueue.unlink tr self w).calls
          = w.calls ++ [Call.mq_unlink (c_str self.mailbox_name)]
      ∧ ((tr.mq_unlink w.os (c_str self.mailbox_name)).1 ≠ 0 →
          (metaqueue.unlink tr self w).cerr.length = w.cerr.length + 1)
      ∧ (metaqueue.count_by_name tr w name attr0).2.calls
          = w.calls ++
            (if (tr.mq_open w.os (c_str ('/' :: name)) O_RDONLY none).1 = -1 then
              [Call.mq_open (c_str ('/' :: name)) O_RDONLY none]
             else
              [Call.mq_open (c_str ('/' :: name)) O_RDONLY none,
                Call.mq_getattr (tr.mq_open w.os (c_str ('/' :: name)) O_RDONLY none).1,
                Call.mq_close (tr.mq_open w.os (c_str ('/' :: name)) O_RDONLY none).1])
      ∧ (metaqueue.count_by_name tr w name attr0).2.cerr.length
          = w.cerr.length +
            (if (tr.mq_open w.os (c_str ('/' :: name)) O_RDONLY none).1 = -1 then 2
             else
              (if (tr.mq_getattr (tr.mq_open w.os (c_str ('/' :: name)) O_RDONLY none).2
                    (tr.mq_open w.os (c_str ('/' :: name)) O_RDONLY none).1 attr0).1 = -1
                then 1 else 0)
              + (if (tr.mq_close
                    (tr.mq_getattr (tr.mq_open w.os (c_str ('/' :: name)) O_RDONLY none).2
                      (tr.mq_open w.os (c_str ('/' :: name)) O_RDONLY none).1 attr0).2.2
                    (tr.mq_open w.os (c_str ('/' :: name)) O_RDONLY none).1).1 ≠ 0
                then 1 else 0))
      ∧ (metaqueue.dequeue cfg T (pop_instantiable hcopy) V tr self w timeout priority).2.2.calls
          = w.calls ++
            (if timeout = -1 then [Call.mq_receive self.queue_fd cfg.MaxMessageSize]
             else [Call.clock_gettime,
               Call.mq_timedreceive self.queue_fd cfg.MaxMessageSize
                 (QueueMetafunctions.timeout tr w timeout).1]) := by
  refine ⟨?_, ?_, ?_, ?_, ?_, ?_, ?_, ?_, dequeue_calls cfg T V tr self w timeout priority hcopy⟩
  · intro hn
    simp [metaqueue.enqueue, metaqueue.push, hn, report]
  · intro hn
    simp only [metaqueue.enqueue, metaqueue.push, hn, if_false,
      push_run_eq tr V _ _ _ hcopy,
      QueueMetafunctions.push.run_raw, QueueMetafunctions.push.run_view]
    cases ht : metaqueue.is_trivial T
    · simp only [Bool.false_eq_true, if_false]
      constructor
      · split <;> rename_i heq <;> split at heq <;> cases heq <;> simp [report]
      · intro hs
        simp [hs, report]
    · simp only [if_true]
      constructor
      · split <;> rename_i heq <;> split at heq <;> cases heq <;> simp [report]
      · intro hs
        simp [hs, report]
  · simp only [metaqueue.count]
    split <;> simp [report]
  · intro hg
    simp [metaqueue.count, hg, report]
  · simp only [metaqueue.unlink]
    split <;> simp [report]
  · intro hu
    simp [metaqueue.unlink, hu, report]
  · simp only [metaqueue.count_by_name, List.singleton_append]
    split_ifs <;> simp [report]
  · simp only [metaqueue.count_by_name, List.singleton_append]
    split_ifs <;> simp [report]

/-- The report counts of C12 amended on the transport that refuses everything (`enqueue`
with a failing `mq_notify`, `count()`, `unlink`, `count(name)` with a failing `mq_open`)
and for an `enqueue` whose `mq_send` fails on a full queue. -/
theorem error_reports_once_witness :
    ((metaqueue.enqueue .std_string rfl std_string_ops refusing metaqueue.opened World.start
        [72, 105] 0).calls = World.start.calls ++ [Call.mq_notify metaqueue.opened.queue_fd]
      ∧ (metaqueue.enqueue .std_string rfl std_string_ops refusing metaqueue.opened World.start
        [72, 105] 0).cerr.length = World.start.cerr.length + 1)
      ∧ (metaqueue.count refusing metaqueue.opened World.start).2.2.cerr.length
          = World.start.cerr.length + 1
      ∧ (metaqueue.unlink refusing metaqueue.opened World.start).cerr.length
          = World.start.cerr.length + 1
      ∧ (metaqueue.enqueue .std_string rfl std_string_ops loopback metaqueue.opened
          { World.start with os := Kernel.full } [72, 105] 7).cerr.length = 0 + 1 :=
  ⟨(error_reports_once Config.default .std_string std_string_ops refusing metaqueue.opened
      World.start [72, 105] 0 (-1) "myQueue".toList ⟨0, 0, 0, 0⟩ rfl).1 rfl,
   (error_reports_once Config.default .std_string std_string_ops refusing metaqueue.opened
      World.start [72, 105] 0 (-1) "myQueue".toList ⟨0, 0, 0, 0⟩ rfl).2.2.2.1 rfl,
   (error_reports_once Config.default .std_string std_string_ops refusing metaqueue.opened
      World.start [72, 105] 0 (-1) "myQueue".toList ⟨0, 0, 0, 0⟩ rfl).2.2.2.2.2.1 (by decide),
   ((error_reports_once Config.default .std_string std_string_ops loopback metaqueue.opened
      { World.start with os := Kernel.full } [72, 105] 7 (-1) "myQueue".toList ⟨0, 0, 0, 0⟩
      rfl).2.1 (by decide)).2 (by decide)⟩

/-! ## Unclassifiable types -/

/-- C13 at a type that is not standard-layout (trivial or not): `metaqueue::push` and
`metaqueue::pop` select the primary templates. The primary `push` declares `value_ref` as
a member `type` of `std::add_lvalue_reference_t<T>`, which names no type, and the primary
`pop<...>::run` takes an `int *` where `metaqueue::pop` passes an `unsigned int *`: neither
call can be instantiated, so no `enqueue` or `dequeue` of such a type exists to end in the
missing-specialisation error the primary templates are written to throw. -/
theorem unclassifiable_not_instantiable :
    (metaqueue.is_memcpyed (.object false true) = false
      ∧ metaqueue.push_strategy (.object false true) = .reject
      ∧ metaqueue.pop_strategy (.object false true) = .reject
      ∧ metaqueue.push_strategy (.object false false) = .reject
      ∧ metaqueue.pop_strategy (.object false false) = .reject)
      ∧ (QueueMetafunctions.push.value_ref .reject = .alias_member
        ∧ QueueMetafunctions.value_ref_name.names_a_type .alias_member = false
        ∧ QueueMetafunctions.push.instantiable (metaqueue.push_strategy (.object false true))
            = false
        ∧ QueueMetafunctions.push.instantiable (metaqueue.push_strategy (.object false false))
            = false)
      ∧ (QueueMetafunctions.pop.priority_parameter .reject = .int_pointer
        ∧ QueueMetafunctions.pop.priority_argument = .unsigned_int_pointer
        ∧ QueueMetafunctions.pop.instantiable (metaqueue.pop_strategy (.object false true))
            = false
        ∧ QueueMetafunctions.pop.instantiable (metaqueue.pop_strategy (.object false false))
            = false) := by
  refine ⟨⟨?_, ?_, ?_, ?_, ?_⟩, ⟨?_, ?_, ?_, ?_⟩, ⟨?_, ?_, ?_, ?_⟩⟩ <;> rfl

/-! ## Raw-copy encode -/

/-- C14: for a trivial standard-layout value type, a value `v` whose object
representation has `sizeof(T)` bytes and an `unsigned int` priority `p`, when `mq_notify`
succeeds `enqueue(v, p)` invokes `mq_send` exactly once, with the object representation
of `v`, the length `sizeof(T)` and the priority `p`. -/
theorem raw_copy_encode {σ α : Type} (T : CxxType) (V : value_ops α) (tr : Transport σ)
    (self : metaqueue) (w : World σ) (v : α) (p : Nat)
    (hcopy : metaqueue.is_memcpyed T = true) (htrivial : metaqueue.is_trivial T = true)
    (hp : p < 2 ^ 32) (hnotify : (tr.mq_notify w.os self.queue_fd).1 ≠ -1)
    (himage : (V.object_bytes v).length = V.sizeof) :
    ∃ msg, (metaqueue.enqueue T (push_instantiable hcopy) V tr self w v p).calls
          = w.calls ++ [Call.mq_notify self.queue_fd, Call.mq_send self.queue_fd msg V.sizeof p]
      ∧ msg = V.object_bytes v ∧ msg.length = V.sizeof := by
  refine ⟨V.object_bytes v, ?_, rfl, himage⟩
  simp only [metaqueue.enqueue, metaqueue.push, hnotify, if_false,
    push_run_eq tr V _ _ _ hcopy, htrivial, if_true,
    QueueMetafunctions.push.run_raw, to_unsigned_to_int p hp]
  split <;> rename_i heq <;> split at heq <;> cases heq <;> simp [report]

/-- The encode of C14 for the `int` 1993 with the largest priority, `2 ^ 32 - 1`. -/
theorem raw_copy_encode_witness :
    ∃ msg, (metaqueue.enqueue (.object true true) rfl (trivial_ops 4) loopback metaqueue.opened
          World.start [201, 7, 0, 0] 4294967295).calls
          = World.start.calls ++ [Call.mq_notify metaqueue.opened.queue_fd,
              Call.mq_send metaqueue.opened.queue_fd msg (trivial_ops 4).sizeof 4294967295]
      ∧ msg = (trivial_ops 4).object_bytes [201, 7, 0, 0]
      ∧ msg.length = (trivial_ops 4).sizeof :=
  raw_copy_encode (.object true true) (trivial_ops 4) loopback metaqueue.opened World.start
    [201, 7, 0, 0] 4294967295 rfl rfl (by norm_num) (by decide) rfl

/-! ## The size-mismatch message -/

/-- C15 at `sizeof(T) = 4` and a received count of 3: the message of the error thrown
consists of the two fixed texts, each followed by one character, the one with code 4
and the one with code 3; it contains neither the digit 4 nor the digit 3. -/
theorem size_mismatch_message_chars :
    QueueMetafunctions.data_builder.create (trivial_ops 4) (trivial_ops 4).sizeof true true
        [1, 2, 3] 3
        = .error (String.mk ("Invalid message size, expected ".toList ++ [Char.ofNat 4]
            ++ " But received: ".toList ++ [Char.ofNat 3]))
      ∧ (toString (4 : Nat)).toList = ['4']
      ∧ (toString (3 : Int)).toList = ['3']
      ∧ '4' ∉ "Invalid message size, expected ".toList ++ [Char.ofNat 4]
            ++ " But received: ".toList ++ [Char.ofNat 3]
      ∧ '3' ∉ "Invalid message size, expected ".toList ++ [Char.ofNat 4]
            ++ " But received: ".toList ++ [Char.ofNat 3] := by
  refine ⟨rfl, rfl, rfl, ?_, ?_⟩ <;> decide

/-! ## The priority argument of dequeue -/

/-- C16: two `dequeue` calls that differ only in the priority argument have the same
result: the same returned value, the same object afterwards (success flag and scratch
buffer included) and the same world afterwards, so the same primitives invoked with the
same arguments. The hypothesis `hcall` says that the calls exist. -/
theorem dequeue_priority_irrelevant {σ α : Type} (cfg : Config) (T : CxxType) (V : value_ops α)
    (tr : Transport σ) (self : metaqueue) (w : World σ) (timeout : Int) (p q : Nat)
    (hcall : QueueMetafunctions.pop.instantiable (metaqueue.pop_strategy T) = true) :
    metaqueue.dequeue cfg T hcall V tr self w timeout p
        = metaqueue.dequeue cfg T hcall V tr self w timeout q
      ∧ (metaqueue.dequeue cfg T hcall V tr self w timeout p).1
          = (metaqueue.dequeue cfg T hcall V tr self w timeout q).1
      ∧ (metaqueue.dequeue cfg T hcall V tr self w timeout p).2.1.was_dequeued
          = (metaqueue.dequeue cfg T hcall V tr self w timeout q).2.1.was_dequeued
      ∧ (metaqueue.dequeue cfg T hcall V tr self w timeout p).2.1.buffer
          = (metaqueue.dequeue cfg T hcall V tr self w timeout q).2.1.buffer
      ∧ (metaqueue.dequeue cfg T hcall V tr self w timeout p).2.2.calls
          = (metaqueue.dequeue cfg T hcall V tr self w timeout q).2.2.calls :=
  ⟨rfl, rfl, rfl, rfl, rfl⟩

/-- The equality of C16 for `std::string` on a channel holding the message Hi with
priority 3, dequeued with the priority arguments 0 and 9: both calls return Hi. -/
theorem dequeue_priority_irrelevant_witness :
    metaqueue.dequeue Config.default .std_string rfl std_string_ops loopback metaqueue.opened
        { World.start with os := { Kernel.empty with msgs := [([72, 105], 3)] } } (-1) 0
        = metaqueue.dequeue Config.default .std_string rfl std_string_ops loopback
            metaqueue.opened
            { World.start with os := { Kernel.empty with msgs := [([72, 105], 3)] } } (-1) 9
      ∧ (metaqueue.dequeue Config.default .std_string rfl std_string_ops loopback
          metaqueue.opened
          { World.start with os := { Kernel.empty with msgs := [([72, 105], 3)] } } (-1) 9).1
          = [72, 105] :=
  ⟨(dequeue_priority_irrelevant Config.default .std_string std_string_ops loopback
      metaqueue.opened
      { World.start with os := { Kernel.empty with msgs := [([72, 105], 3)] } } (-1) 0 9 rfl).1,
   rfl⟩

end Metaqueue
